import Mathlib

/- Verification development for the urbanAI population-grid and school-site
recommendation core.  The definitions below are shallow embeddings of the
Python source in src/building_optimizer (grid_service.py,
ai_recommendations_service.py, services.py, models.py).  Machine floats are
modelled by exact rationals (data, aggregation, calibration) and by real
numbers (trigonometric haversine distances); Python int() truncation and
round() banker's rounding are modelled explicitly. -/

namespace UrbanAI

/- ===================== Python numeric primitives ===================== -/

/-- Python int() applied to a rational: truncation toward zero. -/
def pyInt (q : ℚ) : ℤ := if 0 ≤ q then ⌊q⌋ else ⌈q⌉

/-- Python round() to the nearest integer, ties to even (banker's rounding). -/
def bankersRound (q : ℚ) : ℤ :=
  let f : ℤ := ⌊q⌋
  let r : ℚ := q - f
  if r < 1/2 then f else if 1/2 < r then f + 1 else if 2 ∣ f then f else f + 1

/-- Python round(x, n): banker's rounding at n decimal digits. -/
def pyRoundTo (q : ℚ) (n : ℕ) : ℚ := (bankersRound (q * 10 ^ n) : ℚ) / 10 ^ n

/- ===================== models.py : School ===================== -/

/-- School record fields used by the derived-capacity chain
(models.py, class School).  Django IntegerFields are modelled as ℤ. -/
structure School where
  total_students : ℤ
  total_classes : ℤ
  max_capacity : ℤ
  real_capacity : ℤ
deriving DecidableEq

/-- models.py School.estimated_capacity: first nonzero of
max_capacity, real_capacity, total_classes*28, total_students, else 0. -/
def School.estimated_capacity (s : School) : ℤ :=
  if 0 < s.max_capacity then s.max_capacity
  else if 0 < s.real_capacity then s.real_capacity
  else if 0 < s.total_classes then s.total_classes * 28
  else if 0 < s.total_students then s.total_students
  else 0

/-- models.py School.occupancy_rate:
round((total_students / capacity) * 100, 2) if capacity > 0 else 0. -/
def School.occupancy_rate (s : School) : ℚ :=
  if 0 < s.estimated_capacity then
    pyRoundTo ((s.total_students : ℚ) / (s.estimated_capacity : ℚ) * 100) 2
  else 0

/- ============ grid_service.py : calculate_building_population ============ -/

/-- Luxury keywords checked against the lowercased OSM name tag
(grid_service.py line 131). -/
def luxuryWords : List String :=
  ["элит", "премиум", "люкс", "бизнес", "резиденс", "комфорт"]

/-- Substring test word-in-name on character lists (Python `word in name`). -/
def containsSub (hay : List Char) (w : String) : Bool := decide (w.data <:+: hay)

/-- Python str.lower() modelled on the character list.  (Lean's Char.toLower
only lowers ASCII; the luxury keywords are already lowercase Cyrillic, so the
classification branch is only exercised by names that the claims quantify
over opaquely.) -/
def pyLowerChars (s : String) : List Char := s.data.map Char.toLower

/-- tags.get('name','').lower() containing any luxury keyword. -/
def hasLuxuryKeyword (nameTag : String) : Bool :=
  luxuryWords.any (fun w => containsSub (pyLowerChars nameTag) w)

/-- grid_service.py GridService.calculate_building_population.
Returns (category, resolved levels, occupants).  The levels argument is the
parsed int(float(levels)) value, None when absent or unparseable. -/
def calculateBuildingPopulation (buildingType : String) (levels : Option ℤ)
    (areaM2 : ℚ) (nameTag : String) : String × ℤ × ℤ :=
  let lv : ℤ :=
    match levels with
    | some l => l
    | none =>
      if buildingType = "apartments" then
        (if 1500 < areaM2 then 12 else if 800 < areaM2 then 9
         else if 400 < areaM2 then 5 else 4)
      else if buildingType = "house" ∨ buildingType = "residential" then
        (if 200 < areaM2 then 2 else 1)
      else
        (if areaM2 < 200 then 1 else if areaM2 < 400 then 2 else 4)
  let catPop : String × ℤ :=
    if lv ≤ 2 then
      ("private",
        if areaM2 < 60 then 3 else if areaM2 < 100 then 4
        else if areaM2 < 150 then 5 else if areaM2 < 250 then 6 else 7)
    else
      let cs : String × ℤ :=
        if hasLuxuryKeyword nameTag then ("elite", 30)
        else if 12 ≤ lv then ("high_rise", 24)
        else if 9 ≤ lv then ("soviet_high", 22)
        else if 6 ≤ lv then ("mid_rise", 22)
        else if 4 ≤ lv then ("soviet", 22)
        else ("low_rise", 24)
      (cs.1, pyInt (areaM2 * (lv : ℚ) * (72/100) / (cs.2 : ℚ)))
  (catPop.1, lv, max 2 (min catPop.2 800))

/- ===================== haversine implementations ===================== -/

/-- Python math.radians. -/
noncomputable def radians (x : ℝ) : ℝ := x * Real.pi / 180

/-- Python math.atan2(y, x), the quadrant-aware arctangent. -/
noncomputable def atan2 (y x : ℝ) : ℝ :=
  if 0 < x then Real.arctan (y / x)
  else if x < 0 then
    (if 0 ≤ y then Real.arctan (y / x) + Real.pi else Real.arctan (y / x) - Real.pi)
  else
    (if 0 < y then Real.pi / 2 else if y < 0 then -(Real.pi / 2) else 0)

/-- grid_service.py GridService._haversine_distance (atan2 form, R = 6371). -/
noncomputable def gridHaversine (lat1 lng1 lat2 lng2 : ℝ) : ℝ :=
  let lat1Rad := radians lat1
  let lat2Rad := radians lat2
  let dlat := radians (lat2 - lat1)
  let dlng := radians (lng2 - lng1)
  let a := Real.sin (dlat / 2) ^ 2 +
    Real.cos lat1Rad * Real.cos lat2Rad * Real.sin (dlng / 2) ^ 2
  let c := 2 * atan2 (Real.sqrt a) (Real.sqrt (1 - a))
  6371 * c

/-- ai_recommendations_service.py AIRecommendationsService._haversine_distance
(asin form, R = 6371). -/
noncomputable def aiHaversine (lat1 lon1 lat2 lon2 : ℝ) : ℝ :=
  let lat1R := radians lat1
  let lat2R := radians lat2
  let dlat := radians lat2 - radians lat1
  let dlon := radians lon2 - radians lon1
  let a := Real.sin (dlat / 2) ^ 2 +
    Real.cos lat1R * Real.cos lat2R * Real.sin (dlon / 2) ^ 2
  let c := 2 * Real.arcsin (Real.sqrt a)
  6371 * c

/-- services.py BuildingOptimizerService._calculate_distance
(atan2 form, R = 6371; textually the same formula as the grid service's). -/
noncomputable def servicesHaversine (lat1 lng1 lat2 lng2 : ℝ) : ℝ :=
  let lat1Rad := radians lat1
  let lat2Rad := radians lat2
  let dlat := radians (lat2 - lat1)
  let dlng := radians (lng2 - lng1)
  let a := Real.sin (dlat / 2) ^ 2 +
    Real.cos lat1Rad * Real.cos lat2Rad * Real.sin (dlng / 2) ^ 2
  let c := 2 * atan2 (Real.sqrt a) (Real.sqrt (1 - a))
  6371 * c

/- ===================== grid_service.py : data model ===================== -/

/-- A building record as consumed by create_population_grid.  levels is the
already-parsed int(float(levels)) (None when absent or unparseable);
area_m2 is building.get('area_m2', 100); nameTag is tags.get('name', ''). -/
structure Building where
  lat : ℚ
  lng : ℚ
  building_type : String
  levels : Option ℤ
  area_m2 : ℚ
  has_levels_data : Bool
  nameTag : String
deriving DecidableEq

/-- District record: name, center coordinates (defaults 0 in the source when
absent), multipolygon boundary as lists of (lat, lng) points. -/
structure DistrictGeom where
  name : String
  lat : ℚ
  lng : ℚ
  geometry : List (List (ℚ × ℚ))
deriving DecidableEq

/-- In-progress grid cell during the aggregation pass of
create_population_grid (the per-key dict values). -/
structure RawCell where
  lat : ℚ
  lng : ℚ
  population : ℤ
  buildings_count : ℕ
  total_levels : ℤ
  total_area : ℚ
  categories : List (String × ℕ)
  with_levels_data : ℕ
  district : Option String
deriving DecidableEq

/-- An output grid cell of create_population_grid.  Real cells are emitted
without an 'interpolated' key in the source; that is modelled as
interpolated = false. -/
structure GridCell where
  lat : ℚ
  lng : ℚ
  population : ℤ
  density : ℤ
  buildings_count : ℕ
  avg_levels : ℚ
  avg_area : ℚ
  dominant_category : String
  categories : List (String × ℕ)
  with_levels_data : ℕ
  color : String
  color_hex : String
  district : Option String
  interpolated : Bool
deriving DecidableEq

/-- Per-district entry of districts_population. -/
structure DistrictPopEntry where
  population : ℤ
  buildings : ℕ
  area_km2 : ℚ
deriving DecidableEq

/-- The stats dict of create_population_grid (by_category is kept as an
insertion-ordered association list, like a Python dict). -/
structure GridStats where
  total_buildings : ℕ
  total_population : ℤ
  by_category : List (String × ℕ)
  with_levels_data : ℕ
  estimated_levels : ℕ
  buildings_in_districts : ℕ
  buildings_outside_districts : ℕ
deriving DecidableEq

/-- Result of create_population_grid. -/
structure GridResult where
  grid_cells : List GridCell
  total_population : ℤ
  stats : GridStats
  districts_population : List (String × DistrictPopEntry)

/- ============ grid_service.py : point-in-polygon and districts ============ -/

/-- grid_service.py GridService._point_in_polygon (ray casting).  The guarded
division (yj - yi) is never zero on the taken branch; ℚ division by zero
yields 0, which the guard makes irrelevant. -/
def pointInPolygon (lat lng : ℚ) (polygon : List (ℚ × ℚ)) : Bool :=
  if polygon.length < 3 then false
  else
    match polygon.getLast? with
    | none => false
    | some lastP =>
      let shifted := lastP :: polygon.dropLast
      ((polygon.zip shifted).foldl (fun inside pp =>
        let xi := pp.1.1
        let yi := pp.1.2
        let xj := pp.2.1
        let yj := pp.2.2
        if ((decide (lng < yi)) != (decide (lng < yj))) &&
            decide (lat < (xj - xi) * (lng - yi) / (yj - yi) + xi)
        then !inside else inside) false)

open Classical in
/-- grid_service.py GridService._point_in_district: with no geometry, within
2.5 km of the district center; otherwise ray casting over each polygon. -/
noncomputable def pointInDistrict (lat lng : ℚ) (d : DistrictGeom) : Bool :=
  if d.geometry.isEmpty then
    decide (gridHaversine (lat : ℝ) (lng : ℝ) (d.lat : ℝ) (d.lng : ℝ) ≤ 2.5)
  else d.geometry.any (fun poly => pointInPolygon lat lng poly)

open Classical in
/-- grid_service.py GridService._find_nearest_district: first district whose
polygon (or 2.5 km center disc) contains the point, else the nearest district
center by haversine distance if within 5 km, else None. -/
noncomputable def findNearestDistrict (lat lng : ℚ)
    (districts : List DistrictGeom) : Option String :=
  if districts.isEmpty then none
  else
    match districts.find? (fun d => pointInDistrict lat lng d) with
    | some d => some d.name
    | none =>
      let best := districts.foldl (fun acc d =>
        let dist := gridHaversine (lat : ℝ) (lng : ℝ) (d.lat : ℝ) (d.lng : ℝ)
        match acc with
        | none => some (dist, d.name)
        | some mn => if dist < mn.1 then some (dist, d.name) else some mn) none
      match best with
      | some mn => if mn.1 ≤ 5 then some mn.2 else none
      | none => none

/- ============ grid_service.py : create_population_grid ============ -/

/-- Quantize a latitude to the grid step (round(lat / 0.0045) * 0.0045). -/
def quantizeLat (lat : ℚ) : ℚ := (bankersRound (lat / 0.0045) : ℚ) * 0.0045

/-- Quantize a longitude to the grid step (round(lng / 0.006) * 0.006). -/
def quantizeLng (lng : ℚ) : ℚ := (bankersRound (lng / 0.006) : ℚ) * 0.006

/-- Grid dict key: the quantized coordinates rounded to 6 decimals. -/
def gridKey (glat glng : ℚ) : ℚ × ℚ := (pyRoundTo glat 6, pyRoundTo glng 6)

/-- Insertion-ordered dict update: modify the entry at key in place, or
append a new entry holding f init (Python dict semantics). -/
def upsertCell (key : ℚ × ℚ) (init : RawCell) (f : RawCell → RawCell) :
    List ((ℚ × ℚ) × RawCell) → List ((ℚ × ℚ) × RawCell)
  | [] => [(key, f init)]
  | kc :: rest =>
    if kc.1 = key then (kc.1, f kc.2) :: rest
    else kc :: upsertCell key init f rest

/-- cell['categories'][category] = get(category, 0) + 1 on an
insertion-ordered association list. -/
def bumpCategory (cat : String) : List (String × ℕ) → List (String × ℕ)
  | [] => [(cat, 1)]
  | kn :: rest =>
    if kn.1 = cat then (kn.1, kn.2 + 1) :: rest
    else kn :: bumpCategory cat rest

/-- One iteration of the per-building loop of create_population_grid:
estimate the building, accumulate it into its grid cell, and (re)try the
nearest-district lookup while the cell has no district yet. -/
noncomputable def addBuilding (districts : List DistrictGeom)
    (grid : List ((ℚ × ℚ) × RawCell)) (b : Building) :
    List ((ℚ × ℚ) × RawCell) :=
  let est := calculateBuildingPopulation b.building_type b.levels b.area_m2 b.nameTag
  let glat := quantizeLat b.lat
  let glng := quantizeLng b.lng
  let init : RawCell :=
    { lat := glat, lng := glng, population := 0, buildings_count := 0,
      total_levels := 0, total_area := 0, categories := [],
      with_levels_data := 0, district := none }
  upsertCell (gridKey glat glng) init (fun cell =>
    let cell :=
      { cell with
        population := cell.population + est.2.2,
        buildings_count := cell.buildings_count + 1,
        total_levels := cell.total_levels + est.2.1,
        total_area := cell.total_area + b.area_m2,
        categories := bumpCategory est.1 cell.categories,
        with_levels_data := cell.with_levels_data + (if b.has_levels_data then 1 else 0) }
    if districts.isEmpty = false ∧ cell.district = none then
      { cell with district := findNearestDistrict b.lat b.lng districts }
    else cell) grid

/-- The whole aggregation pass over the building list. -/
noncomputable def aggregateGrid (buildings : List Building)
    (districts : List DistrictGeom) : List ((ℚ × ℚ) × RawCell) :=
  buildings.foldl (addBuilding districts) []

/-- stats['total_population'] before calibration: the sum of the per-building
population estimates. -/
def rawTotalPopulation (buildings : List Building) : ℤ :=
  (buildings.map (fun b =>
    (calculateBuildingPopulation b.building_type b.levels b.area_m2 b.nameTag).2.2)).sum

/-- calibration_factor = 1350000 / raw_total, or 1.0 when raw_total is 0. -/
def calibrationFactor (buildings : List Building) : ℚ :=
  let rawTotal := rawTotalPopulation buildings
  if 0 < rawTotal then (1350000 : ℚ) / (rawTotal : ℚ) else 1

/-- Density color bands of create_population_grid. -/
def densityColor (density : ℤ) : String × String :=
  if density < 1500 then ("green", "#00B050")
  else if density < 6000 then ("yellow", "#F4D03F")
  else if density < 10000 then ("orange", "#FF8C00")
  else if density < 20000 then ("red", "#FF3B30")
  else ("purple", "#7E57C2")

/-- Python max(items, key=value) over the categories dict: the first entry of
maximal count ('unknown' when empty). -/
def dominantCategory (cats : List (String × ℕ)) : String :=
  match cats with
  | [] => "unknown"
  | c :: rest => (rest.foldl (fun best p => if best.2 < p.2 then p else best) c).1

/-- Turn one aggregated cell into an output grid cell: apply the calibration
factor with int() truncation, derive density over the 0.25 km² cell area,
round the per-cell averages, pick the color band. -/
def mkGridCell (factor : ℚ) (cell : RawCell) : GridCell :=
  let calibrated := pyInt ((cell.population : ℚ) * factor)
  let density := pyInt ((calibrated : ℚ) / 0.25)
  let col := densityColor density
  { lat := cell.lat, lng := cell.lng, population := calibrated,
    density := density, buildings_count := cell.buildings_count,
    avg_levels := pyRoundTo ((cell.total_levels : ℚ) / (cell.buildings_count : ℚ)) 1,
    avg_area := pyRoundTo (cell.total_area / (cell.buildings_count : ℚ)) 0,
    dominant_category := dominantCategory cell.categories,
    categories := cell.categories, with_levels_data := cell.with_levels_data,
    color := col.1, color_hex := col.2, district := cell.district,
    interpolated := false }

/-- districts_population initialisation: one zero entry per district name
(later duplicates overwrite, as in a Python dict). -/
def upsertPopEntry (name : String) (v : DistrictPopEntry) :
    List (String × DistrictPopEntry) → List (String × DistrictPopEntry)
  | [] => [(name, v)]
  | ke :: rest =>
    if ke.1 = name then (ke.1, v) :: rest
    else ke :: upsertPopEntry name v rest

def initDistrictsPop (districts : List DistrictGeom) :
    List (String × DistrictPopEntry) :=
  districts.foldl (fun m d =>
    upsertPopEntry d.name { population := 0, buildings := 0, area_km2 := 0 } m) []

/-- Add a real cell's calibrated population and building count to its
district's entry (only existing keys are updated). -/
def bumpDistrict (name : String) (pop : ℤ) (bcount : ℕ) :
    List (String × DistrictPopEntry) → List (String × DistrictPopEntry)
  | [] => []
  | ke :: rest =>
    if ke.1 = name then
      (ke.1,
        { ke.2 with
          population := ke.2.population + pop,
          buildings := ke.2.buildings + bcount }) :: rest
    else ke :: bumpDistrict name pop bcount rest

/-- The district-stats update of the real-cell loop: the guard
`cell['district'] and cell['district'] in districts_population` requires a
truthy (non-empty) district name that is a key of the dict. -/
def accumulateDistrict (m : List (String × DistrictPopEntry)) (gc : GridCell) :
    List (String × DistrictPopEntry) :=
  match gc.district with
  | some d =>
    if d ≠ "" ∧ (m.find? (fun p => p.1 == d)).isSome then
      bumpDistrict d gc.population gc.buildings_count m
    else m
  | none => m

/-- Stable insertion into a list: the inserted x (an earlier element of the
original list) is pushed past y only when lt x y strictly holds, so ties
keep their original order.  Together with stableSort this is extensionally
the (stable) Python list.sort. -/
def stableInsert (lt : α → α → Prop) [DecidableRel lt] (x : α) :
    List α → List α
  | [] => [x]
  | y :: ys => if lt x y then y :: stableInsert lt x ys else x :: y :: ys

/-- Stable sort placing a before b exactly when lt b a (ties stay stable). -/
def stableSort (lt : α → α → Prop) [DecidableRel lt] : List α → List α
  | [] => []
  | x :: xs => stableInsert lt x (stableSort lt xs)

/-- The interpolation scan's coordinate progression:
while start <= stop: yield start; start += step.  The fuel bound 200 exceeds
the at most 39 (latitude) / 41 (longitude) iterations of the source loop. -/
def qRange (fuel : ℕ) (start stop step : ℚ) : List ℚ :=
  match fuel with
  | 0 => []
  | n + 1 => if start ≤ stop then start :: qRange n (start + step) stop step else []

/-- All (lat, lng) loop points of the interpolation pass over the Bishkek
bounding box 42.78..42.95 × 74.48..74.72. -/
def interpPoints : List (ℚ × ℚ) :=
  (qRange 200 42.78 42.95 0.0045).flatMap (fun la =>
    (qRange 200 74.48 74.72 0.006).map (fun lo => (la, lo)))

/-- district_avg_density: population / max(buildings * 0.05, 10) for
districts with population, else the 500 default. -/
def districtAvgDensity (districtsPop : List (String × DistrictPopEntry)) :
    List (String × ℚ) :=
  districtsPop.map (fun p =>
    (p.1, if 0 < p.2.population then
            (p.2.population : ℚ) / max ((p.2.buildings : ℚ) * 0.05) 10
          else 500))

/-- district_avg_density.get(name, 500). -/
def lookupAvg (m : List (String × ℚ)) (name : String) : ℚ :=
  ((m.find? (fun p => p.1 == name)).map (fun p => p.2)).getD 500

/-- The interpolation loop of create_population_grid: for every grid point
whose key is not yet occupied and that has a nearest district, synthesize a
low-confidence cell at 30% of the district's average density (floored at
100/km²), and mark the key as occupied. -/
noncomputable def interpolateLoop (avgMap : List (String × ℚ))
    (districts : List DistrictGeom) :
    List (ℚ × ℚ) → List (ℚ × ℚ) → List GridCell
  | [], _ => []
  | p :: rest, seen =>
    let glat := quantizeLat p.1
    let glng := quantizeLng p.2
    let key := gridKey glat glng
    if key ∈ seen then interpolateLoop avgMap districts rest seen
    else
      match findNearestDistrict glat glng districts with
      | some dname =>
        let avgDens := lookupAvg avgMap dname
        let estDensity0 := pyInt (avgDens * 0.3)
        let estDensity := if estDensity0 < 100 then 100 else estDensity0
        let estPop := pyInt ((estDensity : ℚ) * 0.25)
        let col : String × String :=
          if estDensity < 1500 then ("green", "#00B050")
          else if estDensity < 6000 then ("yellow", "#F4D03F")
          else ("orange", "#FF8C00")
        { lat := glat, lng := glng, population := estPop, density := estDensity,
          buildings_count := 0, avg_levels := 1, avg_area := 0,
          dominant_category := "estimated", categories := [("estimated", 1)],
          with_levels_data := 0, color := col.1, color_hex := col.2,
          district := some dname, interpolated := true } ::
          interpolateLoop avgMap districts rest (key :: seen)
      | none => interpolateLoop avgMap districts rest seen

/-- The real (building-backed) output cells: the aggregated cells with
buildings, calibrated (grid_cells before the density sort). -/
noncomputable def realGridCells (buildings : List Building)
    (districts : List DistrictGeom) : List GridCell :=
  ((aggregateGrid buildings districts).filter
    (fun kv => 0 < kv.2.buildings_count)).map
    (fun kv => mkGridCell (calibrationFactor buildings) kv.2)

/-- grid_cells.sort(key=-density): stable descending sort by density. -/
def sortByDensityDesc (cells : List GridCell) : List GridCell :=
  stableSort (fun a b => a.density < b.density) cells

/-- The districts_population dict: per-district calibrated population and
building counts accumulated over the real cells. -/
noncomputable def districtsPopOf (buildings : List Building)
    (districts : List DistrictGeom) : List (String × DistrictPopEntry) :=
  (realGridCells buildings districts).foldl accumulateDistrict
    (initDistrictsPop districts)

/-- The interpolation pass output: nothing when no districts were supplied,
else the loop over the bounding-box points, seeded with the coordinates of
the already-present (sorted real) cells. -/
noncomputable def interpGridCells (districtsPop : List (String × DistrictPopEntry))
    (districts : List DistrictGeom) (sortedCells : List GridCell) : List GridCell :=
  if districts.isEmpty then []
  else interpolateLoop (districtAvgDensity districtsPop) districts interpPoints
    (sortedCells.map (fun c => (c.lat, c.lng)))

/-- grid_service.py GridService.create_population_grid: aggregation,
global calibration, density/color derivation, per-district totals, stable
sort by descending density, and the interpolation pass (only when districts
were supplied). -/
noncomputable def createPopulationGrid (buildings : List Building)
    (districts : List DistrictGeom) : GridResult :=
  let realCells := realGridCells buildings districts
  let calibratedTotal := (realCells.map (fun c => c.population)).sum
  let sortedCells := sortByDensityDesc realCells
  let withDistrict := (realCells.filter (fun c =>
    match c.district with | some s => s != "" | none => false)).length
  let statsByCategory := buildings.foldl (fun m b =>
    bumpCategory (calculateBuildingPopulation b.building_type b.levels b.area_m2 b.nameTag).1 m) []
  { grid_cells := sortedCells ++
      interpGridCells (districtsPopOf buildings districts) districts sortedCells,
    total_population := calibratedTotal,
    stats :=
      { total_buildings := buildings.length,
        total_population := calibratedTotal,
        by_category := statsByCategory,
        with_levels_data := (buildings.filter (fun b => b.has_levels_data)).length,
        estimated_levels := (buildings.filter (fun b => !b.has_levels_data)).length,
        buildings_in_districts := withDistrict,
        buildings_outside_districts := realCells.length - withDistrict },
    districts_population := districtsPopOf buildings districts }

/- ========== ai_recommendations_service.py : analysis data model ========== -/

/-- A high-density cell as assembled by prepare_analysis_data (with the
nearest-school information attached in step 3).  nearest_school_km is
round(distance, 2) of a float distance, hence Option ℝ (None when the school
roster yielded no distance). -/
structure AnalysisCell where
  lat : ℚ
  lng : ℚ
  density : ℤ
  population : ℤ
  district : String
  buildings_count : ℕ
  in_restricted_zone : Bool
  restricted_info : Option String
  students_current : ℤ
  students_projected : ℤ
  nearest_school_km : Option ℝ
  nearest_school_name : Option String

/-- RestrictedZone record; radius_km is zone.get('radius_km', 0.3). -/
structure RestrictedZone where
  name : String
  ztype : String
  lat : ℚ
  lng : ℚ
  radius_km : Option ℚ
deriving DecidableEq

/-- zone.get('radius_km', 0.3). -/
def RestrictedZone.effRadius (z : RestrictedZone) : ℚ := z.radius_km.getD 0.3

/-- The cell center lies strictly inside the zone circle (prepare_analysis_data:
dist < zone radius, by the asin-form haversine). -/
def CellInZone (lat lng : ℚ) (z : RestrictedZone) : Prop :=
  aiHaversine (lat : ℝ) (lng : ℝ) (z.lat : ℝ) (z.lng : ℝ) < (z.effRadius : ℝ)

/-- The cell center lies inside some restricted zone. -/
def InRestrictedZone (lat lng : ℚ) (zones : List RestrictedZone) : Prop :=
  ∃ z ∈ zones, CellInZone lat lng z

open Classical in
/-- The restricted-zone flagging of prepare_analysis_data (lines 241-267):
when zones were supplied, mark the cell and record the first matching zone. -/
noncomputable def flagRestricted (zones : List RestrictedZone)
    (c : AnalysisCell) : AnalysisCell :=
  { c with
    in_restricted_zone := !zones.isEmpty && decide (InRestrictedZone c.lat c.lng zones),
    restricted_info :=
      if zones.isEmpty then none
      else (zones.find? (fun z => decide (CellInZone c.lat c.lng z))).map
        (fun z => z.name ++ " (" ++ z.ztype ++ ")") }

/-- A prepared school entry as consumed by the recommendation generator
(the schools list of analysis_data). -/
structure SchoolInfo where
  id : ℤ
  name : String
  district : String
  latitude : Option ℚ
  longitude : Option ℚ
  capacity : ℤ
  occupancy_rate : ℚ
  owner_form : Option String

/-- Python round(x, 2) on a float distance (the sign/tie behaviour of round
on ℝ is half-up here; the recorded distances are nonnegative and the claims
do not depend on tie cases). -/
noncomputable def realRound2 (x : ℝ) : ℝ := ((round (x * 100) : ℤ) : ℝ) / 100

/-- Python round(x, 3). -/
noncomputable def realRound3 (x : ℝ) : ℝ := ((round (x * 1000) : ℤ) : ℝ) / 1000

open Classical in
/-- prepare_analysis_data step 3: the strict-min scan over the school roster
(skipping schools with falsy coordinates), yielding
(round(min distance, 2), name) or (None, None) on an empty scan. -/
noncomputable def nearestSchoolInfo (lat lng : ℚ) (schools : List SchoolInfo) :
    Option ℝ × Option String :=
  let best := schools.foldl (fun acc s =>
    match s.latitude, s.longitude with
    | some la, some lo =>
      if la ≠ 0 ∧ lo ≠ 0 then
        let d := aiHaversine (lat : ℝ) (lng : ℝ) (la : ℝ) (lo : ℝ)
        match acc with
        | none => some (d, s.name)
        | some mn => if d < mn.1 then some (d, s.name) else some mn
      else acc
    | _, _ => acc) none
  match best with
  | none => (none, none)
  | some mn => (some (realRound2 mn.1), some mn.2)

/-- Attach the nearest-school fields to a high-density cell (the
cell_with_info dict of prepare_analysis_data). -/
noncomputable def attachNearest (schools : List SchoolInfo) (c : AnalysisCell) :
    AnalysisCell :=
  let info := nearestSchoolInfo c.lat c.lng schools
  { c with nearest_school_km := info.1, nearest_school_name := info.2 }

/- ========== ai_recommendations_service.py : scoring and selection ========== -/

open Classical in
/-- Python `opt or default` on a float-or-None value: the default replaces
both None and 0. -/
noncomputable def orDefaultR (x : Option ℝ) (d : ℝ) : ℝ :=
  match x with
  | none => d
  | some v => if v = 0 then d else v

open Classical in
/-- The candidate score of _generate_smart_recommendations (line 526):
density * (nearest_school_km or 1) ** 1.5 * (population / 1000). -/
noncomputable def scoreCell (c : AnalysisCell) : ℝ :=
  (c.density : ℝ) * (orDefaultR c.nearest_school_km 1) ^ (1.5 : ℝ) *
    ((c.population : ℝ) / 1000)

/-- The score formula in the words of the specification (§4.6 step 2):
density * (max(nearest_school_km, 1) ** 1.5) * (population / 1000), with a
missing distance scored as 1.  Stated only for comparison with scoreCell. -/
noncomputable def claimScoreC1 (c : AnalysisCell) : ℝ :=
  (c.density : ℝ) * (max (c.nearest_school_km.getD 1) 1) ^ (1.5 : ℝ) *
    ((c.population : ℝ) / 1000)

open Classical in
/-- The greedy spacing loop of _generate_smart_recommendations
(lines 537-552): append a cell unless it is within 0.6 km of an already
selected cell; stop once five cells are selected. -/
noncomputable def selectLoop :
    List AnalysisCell → List AnalysisCell → List AnalysisCell
  | sel, [] => sel
  | sel, c :: rest =>
    if sel.any (fun e => decide
        (aiHaversine (c.lat : ℝ) (c.lng : ℝ) (e.lat : ℝ) (e.lng : ℝ) < (0.6 : ℝ)))
    then selectLoop sel rest
    else
      if 5 ≤ (sel ++ [c]).length then sel ++ [c]
      else selectLoop (sel ++ [c]) rest

open Classical in
/-- scored_cells.sort(key=score, reverse=True): stable descending sort. -/
noncomputable def sortByScoreDesc (l : List AnalysisCell) : List AnalysisCell :=
  stableSort (fun a b => scoreCell a < scoreCell b) l

/-- The restricted-zone filter with its fallback (lines 508-516): drop
flagged cells, but fall back to the whole candidate list when everything is
flagged. -/
def validCells (candidates : List AnalysisCell) : List AnalysisCell :=
  let v := candidates.filter (fun c => !c.in_restricted_zone)
  if v.isEmpty then candidates else v

/-- The selected sites of _generate_smart_recommendations: filter (with
fallback), score-sort, greedy spacing selection. -/
noncomputable def selectedSites (candidates : List AnalysisCell) :
    List AnalysisCell :=
  selectLoop [] (sortByScoreDesc (validCells candidates))

/- ========== ai_recommendations_service.py : recommendation assembly ========== -/

/-- The only exception kind the embedded generator can raise: the Python
TypeError from ordering None against a float. -/
inductive PyErr where
  | typeError
deriving DecidableEq

open Classical in
/-- Python `optValue > r` where optValue is a float or None: comparing None
with a float raises TypeError. -/
noncomputable def pyGtOpt (x : Option ℝ) (r : ℝ) : Except PyErr Bool :=
  match x with
  | none => .error .typeError
  | some v => .ok (decide (r < v))

/-- The priority assignment of _generate_smart_recommendations
(lines 563-569), with Python's short-circuit `or`:
density > 15000 or nearest > 1.5 → critical;
density > 10000 or nearest > 1.0 → high; else medium.
The key 'nearest_school_km' is always present on pipeline cells, so the
.get default 0 is never taken and a None value reaches the comparison. -/
noncomputable def assignPriority (c : AnalysisCell) : Except PyErr String :=
  if 15000 < c.density then .ok "critical"
  else do
    let b ← pyGtOpt c.nearest_school_km 1.5
    if b then pure "critical"
    else if 10000 < c.density then pure "high"
    else do
      let b2 ← pyGtOpt c.nearest_school_km 1.0
      if b2 then pure "high" else pure "medium"

/-- _estimate_students: (int(population * 0.18), int(current * growth)). -/
def estimateStudents (population : ℤ) (growth : ℚ) : ℤ × ℤ :=
  let current := pyInt ((population : ℚ) * (18/100))
  (current, pyInt ((current : ℚ) * growth))

/-- One micro-cell entry of _summarize_quarter_cells. -/
structure QuarterCell where
  lat : ℚ
  lng : ℚ
  current_students : ℤ
  projected_students : ℤ

/-- Result of _summarize_quarter_cells. -/
structure QuarterSummary where
  quarters : List QuarterCell
  current_students : ℤ
  projected_students : ℤ

open Classical in
/-- _summarize_quarter_cells over the full grid (radius 0.35 km).  The grid
cells carry no students keys, so the per-cell fallbacks
int(population * 0.18) and int(current * 1.05) always apply. -/
noncomputable def summarizeQuarterCells (target : AnalysisCell)
    (gridCells : List GridCell) : QuarterSummary :=
  let inRadius := gridCells.filter (fun cell => decide
    (aiHaversine (target.lat : ℝ) (target.lng : ℝ) (cell.lat : ℝ) (cell.lng : ℝ)
      ≤ (0.35 : ℝ)))
  let qs := inRadius.map (fun cell =>
    let cur := pyInt ((cell.population : ℚ) * (18/100))
    { lat := cell.lat, lng := cell.lng, current_students := cur,
      projected_students := pyInt ((cur : ℚ) * (105/100)) : QuarterCell })
  { quarters := qs.take 12,
    current_students := (qs.map (fun q => q.current_students)).sum,
    projected_students := (qs.map (fun q => q.projected_students)).sum }

/-- _classify_owner keyword classification on the lowercased owner string. -/
def classifyOwner (ownerForm : Option String) : String :=
  let owner := pyLowerChars (ownerForm.getD "")
  if [("state" : String), "municipal", "гос", "муниц", "коммун"].any
      (fun w => containsSub owner w) then "government"
  else if containsSub owner "private" || containsSub owner "частн" then "private"
  else "unknown"

/-- One entry of the nearest-schools list of _get_nearest_schools. -/
structure NearSchoolEntry where
  id : ℤ
  name : String
  distance_km : ℝ
  capacity : ℤ
  occupancy_rate : ℚ
  district : String
  owner_type : String

open Classical in
/-- _get_nearest_schools: distances to schools with truthy coordinates,
stable-sorted ascending, first top_k entries. -/
noncomputable def getNearestSchools (lat lng : ℚ) (schools : List SchoolInfo)
    (topK : ℕ) : List NearSchoolEntry :=
  let entries := schools.filterMap (fun s =>
    match s.latitude, s.longitude with
    | some la, some lo =>
      if la ≠ 0 ∧ lo ≠ 0 then
        some { id := s.id, name := s.name,
               distance_km := realRound3 (aiHaversine (lat : ℝ) (lng : ℝ) (la : ℝ) (lo : ℝ)),
               capacity := s.capacity, occupancy_rate := s.occupancy_rate,
               district := s.district,
               owner_type := classifyOwner s.owner_form : NearSchoolEntry }
      else none
    | _, _ => none)
  (stableSort (fun a b => b.distance_km < a.distance_km) entries).take topK

/-- _build_traffic_assessment result. -/
structure TrafficAssessment where
  peak_students_15min : ℤ
  dropoff_flow_per_10min : ℤ
  parking_stalls_required : ℤ
  local_catchment_students : ℤ
  conflict_points : List String

open Classical in
/-- _build_traffic_assessment. -/
noncomputable def buildTrafficAssessment (c : AnalysisCell) (cap : ℤ)
    (qs : QuarterSummary) : TrafficAssessment :=
  let peak := pyInt ((cap : ℚ) * (45/100))
  let pickup := pyInt ((peak : ℚ) * (3/10))
  let parking := max 20 (pyInt ((cap : ℚ) / 100 * 8))
  let localStudents := qs.current_students
  { peak_students_15min := peak,
    dropoff_flow_per_10min := pickup,
    parking_stalls_required := parking,
    local_catchment_students := localStudents,
    conflict_points :=
      (if 20000 < c.density then ["Высокая плотность застройки → интенсивное движение"] else []) ++
      (if 50 < c.buildings_count then ["Много жилых домов в радиусе 500м"] else []) ++
      (if orDefaultR c.nearest_school_km 10 < (0.6 : ℝ) then
        ["Близость к существующей школе — возможно пересечение потоков"] else []) ++
      (if cap < localStudents then
        ["Приток из соседних кварталов превышает проектную вместимость"] else []) }

/-- _evaluate_land_use result. -/
structure LandUse where
  required_plot_area_m2 : ℤ
  estimated_available_area_m2 : ℤ
  required_sports_area_m2 : ℤ
  required_playground_area_m2 : ℤ
  meets_norms : Bool
  sanitary_buffer_m : ℤ
deriving DecidableEq

/-- _evaluate_land_use: plot requirements against an availability estimate
from the build density (cell area 250000 m²). -/
def evaluateLandUse (c : AnalysisCell) (cap : ℤ) : LandUse :=
  let requiredPlot := cap * 35
  let buildShare : ℚ := min (85/100) ((c.buildings_count : ℚ) / 80)
  let available := pyInt (250000 * max (2/10) (1 - buildShare))
  { required_plot_area_m2 := requiredPlot,
    estimated_available_area_m2 := available,
    required_sports_area_m2 := cap * 7,
    required_playground_area_m2 := cap * 4,
    meets_norms := decide (requiredPlot ≤ available),
    sanitary_buffer_m := 25 }

/-- _build_contextual_factors result. -/
structure ContextualFactors where
  future_development_outlook : String
  social_access_benefit : String
  budget_estimate_kgs : ℤ
  budget_level : String

open Classical in
/-- _build_contextual_factors. -/
noncomputable def buildContextualFactors (c : AnalysisCell) (cap : ℤ)
    (growth : ℚ) : ContextualFactors :=
  { future_development_outlook :=
      if 108/100 < growth then "high" else if 102/100 < growth then "medium" else "stable",
    social_access_benefit :=
      if (1.2 : ℝ) < orDefaultR c.nearest_school_km 1.5 then "высокая" else "средняя",
    budget_estimate_kgs := cap * 1200000,
    budget_level :=
      if 1200 < cap then "крупный" else if 800 < cap then "средний" else "компактный" }

/-- The catchment_model sub-record of a recommendation. -/
structure CatchmentModel where
  students_current : ℤ
  students_projected : ℤ
  coverage_gap : ℤ
  microdistrict_breakdown : QuarterSummary
  nearest_schools : List NearSchoolEntry

/-- One recommendation of _generate_smart_recommendations.  The prose fields
(address_hint, reason) are display strings formatted from the same numbers
and are not modelled. -/
structure Recommendation where
  id : ℕ
  lat : ℚ
  lng : ℚ
  district : String
  priority : String
  recommended_capacity : ℤ
  nearby_density : ℤ
  estimated_students : ℤ
  nearest_school_km : Option ℝ
  nearest_school_name : Option String
  catchment_model : CatchmentModel
  traffic_safety_assessment : TrafficAssessment
  land_use_compliance : LandUse
  contextual_factors : ContextualFactors

/-- The parts of analysis_data read by the recommendation assembly:
growth_factor, grid_cells_all, schools. -/
structure AnalysisContext where
  growth_factor : ℚ
  grid_cells_all : List GridCell
  schools : List SchoolInfo

open Classical in
/-- The per-selected-cell body of the recommendation loop (lines 560-619).
The priority comparison runs first, exactly as in the source, so a None
nearest-school distance on a cell of density ≤ 15000 raises before any other
field is computed. -/
noncomputable def mkRecommendation (ctx : AnalysisContext) (idx : ℕ)
    (c : AnalysisCell) : Except PyErr Recommendation := do
  let priority ← assignPriority c
  let snapshot : ℤ × ℤ :=
    if c.students_current = 0 then estimateStudents c.population ctx.growth_factor
    else (c.students_current, c.students_projected)
  let cap := min 1500 (max 500 snapshot.2)
  let qs := summarizeQuarterCells c ctx.grid_cells_all
  pure
    { id := idx, lat := c.lat, lng := c.lng, district := c.district,
      priority := priority, recommended_capacity := cap,
      nearby_density := c.density, estimated_students := snapshot.2,
      nearest_school_km := c.nearest_school_km,
      nearest_school_name := c.nearest_school_name,
      catchment_model :=
        { students_current := snapshot.1, students_projected := snapshot.2,
          coverage_gap := max 0 (snapshot.2 - cap),
          microdistrict_breakdown := qs,
          nearest_schools := getNearestSchools c.lat c.lng ctx.schools 3 },
      traffic_safety_assessment := buildTrafficAssessment c cap qs,
      land_use_compliance := evaluateLandUse c cap,
      contextual_factors := buildContextualFactors c cap ctx.growth_factor }

/-- _generate_smart_recommendations: empty input yields an empty list;
otherwise filter/fallback, score-sort, greedy selection, then the
recommendation loop with ids numbered from 1. -/
noncomputable def generateSmartRecommendations (candidates : List AnalysisCell)
    (ctx : AnalysisContext) : Except PyErr (List Recommendation) :=
  if candidates.isEmpty then .ok []
  else (selectedSites candidates).enum.mapM
    (fun p => mkRecommendation ctx (p.1 + 1) p.2)

/- ===================================================================== -/
/- ============================= THEOREMS ============================== -/
/- ===================================================================== -/

/- ------------------ rounding helper lemmas ------------------ -/

theorem bankersRound_le_floor_add_one (q : ℚ) : bankersRound q ≤ ⌊q⌋ + 1 := by
  unfold bankersRound
  dsimp only
  split_ifs <;> omega

theorem floor_le_bankersRound (q : ℚ) : ⌊q⌋ ≤ bankersRound q := by
  unfold bankersRound
  dsimp only
  split_ifs <;> omega

theorem bankersRound_mono {q r : ℚ} (h : q ≤ r) :
    bankersRound q ≤ bankersRound r := by
  have hf : ⌊q⌋ ≤ ⌊r⌋ := Int.floor_mono h
  by_cases hlt : ⌊q⌋ < ⌊r⌋
  · have h1 := bankersRound_le_floor_add_one q
    have h2 := floor_le_bankersRound r
    omega
  · have heq : ⌊q⌋ = ⌊r⌋ := le_antisymm hf (not_lt.mp hlt)
    unfold bankersRound
    dsimp only
    rw [← heq]
    split_ifs <;> first | rfl | omega | linarith

theorem bankersRound_zero : bankersRound 0 = 0 := by
  unfold bankersRound
  norm_num

theorem pyRoundTo_mono {q r : ℚ} (n : ℕ) (h : q ≤ r) :
    pyRoundTo q n ≤ pyRoundTo r n := by
  unfold pyRoundTo
  have hm : bankersRound (q * 10 ^ n) ≤ bankersRound (r * 10 ^ n) :=
    bankersRound_mono (by
      have : (0 : ℚ) ≤ 10 ^ n := by positivity
      nlinarith)
  have hc : ((bankersRound (q * 10 ^ n) : ℤ) : ℚ) ≤ ((bankersRound (r * 10 ^ n) : ℤ) : ℚ) := by
    exact_mod_cast hm
  have hp : (0 : ℚ) < 10 ^ n := by positivity
  exact (div_le_div_iff_of_pos_right hp).mpr hc

theorem pyRoundTo_zero (n : ℕ) : pyRoundTo 0 n = 0 := by
  unfold pyRoundTo
  rw [zero_mul, bankersRound_zero]
  norm_num

/- ------------------ C8 : occupant clamp ------------------ -/

/-- C8: for every building_type, floor count (absent or any integer),
footprint area and name tag, the occupant count returned by
calculate_building_population lies in the closed interval [2, 800]. -/
theorem c8_occupants_clamped (buildingType : String) (levels : Option ℤ)
    (areaM2 : ℚ) (nameTag : String) :
    2 ≤ (calculateBuildingPopulation buildingType levels areaM2 nameTag).2.2 ∧
    (calculateBuildingPopulation buildingType levels areaM2 nameTag).2.2 ≤ 800 := by
  unfold calculateBuildingPopulation
  dsimp only
  exact ⟨le_max_left _ _, max_le (by norm_num) (min_le_right _ _)⟩

/- ------------------ C7 : capacity / occupancy monotonicity ------------------ -/

theorem School.capacity_pos_of_students_pos (s : School)
    (h : 0 < s.total_students) : 0 < s.estimated_capacity := by
  unfold School.estimated_capacity
  split_ifs <;> omega

/-- C7 counterexample: raising declared_max_capacity from 0 to 1 while the
declared real capacity stays 1000 drops the derived effective capacity from
1000 to 1, so effective capacity is not non-decreasing in
declared_max_capacity across the zero boundary. -/
theorem c7_capacity_counterexample :
    School.estimated_capacity
        { total_students := 0, total_classes := 0, max_capacity := 1, real_capacity := 1000 } <
      School.estimated_capacity
        { total_students := 0, total_classes := 0, max_capacity := 0, real_capacity := 1000 } := by
  norm_num [School.estimated_capacity]

/-- C7 amended: effective capacity is non-decreasing in declared_max_capacity
as long as the declared value stays positive (the counterexample shows the
zero boundary breaks it); and with (nonnegative) enrollment fixed,
occupancy_rate is non-increasing as the derived effective capacity
increases (a zero capacity forces zero enrollment, so the capacity-0
convention is consistent with monotonicity). -/
theorem c7_amended :
    (∀ (s : School) (m1 m2 : ℤ), 0 < m1 → m1 ≤ m2 →
      School.estimated_capacity { s with max_capacity := m1 } ≤
        School.estimated_capacity { s with max_capacity := m2 }) ∧
    (∀ s t : School, s.total_students = t.total_students →
      0 ≤ s.total_students →
      s.estimated_capacity ≤ t.estimated_capacity →
      t.occupancy_rate ≤ s.occupancy_rate) := by
  constructor
  · intro s m1 m2 h1 h12
    have h2 : 0 < m2 := lt_of_lt_of_le h1 h12
    unfold School.estimated_capacity
    simp only [if_pos h1, if_pos h2]
    exact h12
  · intro s t hst hnn hcap
    by_cases hc1 : 0 < s.estimated_capacity
    · have hc2 : 0 < t.estimated_capacity := lt_of_lt_of_le hc1 hcap
      unfold School.occupancy_rate
      rw [if_pos hc1, if_pos hc2, ← hst]
      apply pyRoundTo_mono
      have hq1 : (0 : ℚ) < (s.estimated_capacity : ℚ) := by exact_mod_cast hc1
      have hq2 : (0 : ℚ) < (t.estimated_capacity : ℚ) := by exact_mod_cast hc2
      have hqle : (s.estimated_capacity : ℚ) ≤ (t.estimated_capacity : ℚ) := by
        exact_mod_cast hcap
      have hsn : (0 : ℚ) ≤ (s.total_students : ℚ) := by exact_mod_cast hnn
      have hdiv : (s.total_students : ℚ) / (t.estimated_capacity : ℚ) ≤
          (s.total_students : ℚ) / (s.estimated_capacity : ℚ) := by
        gcongr
      nlinarith
    · have hs0 : s.total_students = 0 := by
        by_contra hne
        have hpos : 0 < s.total_students := lt_of_le_of_ne hnn (Ne.symm hne)
        exact hc1 (School.capacity_pos_of_students_pos s hpos)
      have ht0 : t.total_students = 0 := by omega
      unfold School.occupancy_rate
      rw [if_neg hc1]
      split_ifs with hc2
      · rw [ht0]
        norm_num [pyRoundTo_zero]
      · exact le_refl 0

/-- Witness for c7_amended: capacities 10 ≤ 20 with positive declared max,
and occupancy of a 100-student school dropping as capacity grows 50 → 80. -/
theorem c7_amended_witness :
    School.estimated_capacity
        { total_students := 0, total_classes := 0, max_capacity := 10, real_capacity := 0 } ≤
      School.estimated_capacity
        { total_students := 0, total_classes := 0, max_capacity := 20, real_capacity := 0 } ∧
    School.occupancy_rate
        { total_students := 100, total_classes := 0, max_capacity := 80, real_capacity := 0 } ≤
      School.occupancy_rate
        { total_students := 100, total_classes := 0, max_capacity := 50, real_capacity := 0 } :=
  ⟨c7_amended.1
      { total_students := 0, total_classes := 0, max_capacity := 10, real_capacity := 0 }
      10 20 (by norm_num) (by norm_num),
    c7_amended.2
      { total_students := 100, total_classes := 0, max_capacity := 50, real_capacity := 0 }
      { total_students := 100, total_classes := 0, max_capacity := 80, real_capacity := 0 }
      rfl (by norm_num) (by norm_num [School.estimated_capacity])⟩

/- ------------------ haversine lemmas and C9 ------------------ -/

theorem sin_half_sq (x : ℝ) : Real.sin (x / 2) ^ 2 = (1 - Real.cos x) / 2 := by
  have h1 := Real.sin_sq_add_cos_sq (x / 2)
  have h2 := Real.cos_two_mul (x / 2)
  have h3 : 2 * (x / 2) = x := by ring
  rw [h3] at h2
  linarith

theorem havTerm_bounds (u v w : ℝ) :
    0 ≤ Real.sin ((v - u) / 2) ^ 2 +
        Real.cos u * Real.cos v * Real.sin (w / 2) ^ 2 ∧
    Real.sin ((v - u) / 2) ^ 2 +
        Real.cos u * Real.cos v * Real.sin (w / 2) ^ 2 ≤ 1 := by
  rw [sin_half_sq (v - u), sin_half_sq w, Real.cos_sub]
  have h1 := Real.sin_sq_add_cos_sq u
  have h2 := Real.sin_sq_add_cos_sq v
  have ht1 := Real.neg_one_le_cos w
  have ht2 := Real.cos_le_one w
  have hb : (0:ℝ) ≤ Real.cos v ^ 2 * ((1 - Real.cos w) * (1 + Real.cos w)) :=
    mul_nonneg (sq_nonneg _) (mul_nonneg (by linarith) (by linarith))
  constructor
  · nlinarith [sq_nonneg (Real.sin u - Real.sin v),
      sq_nonneg (Real.cos u - Real.cos v * Real.cos w), hb]
  · nlinarith [sq_nonneg (Real.sin u + Real.sin v),
      sq_nonneg (Real.cos u + Real.cos v * Real.cos w), hb]

theorem atan2_sqrt_eq_arcsin {A : ℝ} (h0 : 0 ≤ A) (h1 : A ≤ 1) :
    atan2 (Real.sqrt A) (Real.sqrt (1 - A)) = Real.arcsin (Real.sqrt A) := by
  by_cases hA : A < 1
  · have hx : 0 < Real.sqrt (1 - A) := Real.sqrt_pos.mpr (by linarith)
    unfold atan2
    rw [if_pos hx]
    have hmem : Real.sqrt A ∈ Set.Ioo (-(1:ℝ)) 1 := by
      constructor
      · have := Real.sqrt_nonneg A
        linarith
      · exact (Real.sqrt_lt' one_pos).mpr (by nlinarith)
    rw [Real.arcsin_eq_arctan hmem, Real.sq_sqrt h0]
  · have hA1 : A = 1 := le_antisymm h1 (not_lt.mp hA)
    subst hA1
    unfold atan2
    norm_num [Real.sqrt_one, Real.arcsin_one]

/-- C9: the grid builder's haversine (atan2 form), the recommendation
service's haversine (asin form) and the spatial helper in services.py all
embed the same haversine formula with Earth radius 6371 km and return equal
results on every pair of coordinate pairs (real-number semantics). -/
theorem c9_haversines_agree (lat1 lng1 lat2 lng2 : ℝ) :
    gridHaversine lat1 lng1 lat2 lng2 = aiHaversine lat1 lng1 lat2 lng2 ∧
    gridHaversine lat1 lng1 lat2 lng2 = servicesHaversine lat1 lng1 lat2 lng2 := by
  constructor
  · unfold gridHaversine aiHaversine
    dsimp only
    have harg1 : radians (lat2 - lat1) = radians lat2 - radians lat1 := by
      unfold radians
      ring
    have harg2 : radians (lng2 - lng1) = radians lng2 - radians lng1 := by
      unfold radians
      ring
    rw [harg1, harg2]
    have hb := havTerm_bounds (radians lat1) (radians lat2)
      (radians lng2 - radians lng1)
    rw [atan2_sqrt_eq_arcsin hb.1 hb.2]
  · rfl

theorem aiHaversine_self (lat lng : ℝ) : aiHaversine lat lng lat lng = 0 := by
  unfold aiHaversine
  simp [sub_self, Real.sqrt_zero, Real.arcsin_zero]

theorem aiHaversine_symm (lat1 lng1 lat2 lng2 : ℝ) :
    aiHaversine lat1 lng1 lat2 lng2 = aiHaversine lat2 lng2 lat1 lng1 := by
  unfold aiHaversine
  dsimp only
  have h : ∀ x y : ℝ, Real.sin ((x - y) / 2) ^ 2 = Real.sin ((y - x) / 2) ^ 2 := by
    intro x y
    rw [show (x - y) / 2 = -((y - x) / 2) by ring, Real.sin_neg]
    ring
  rw [h (radians lat2) (radians lat1), h (radians lng2) (radians lng1),
    mul_comm (Real.cos (radians lat1)) (Real.cos (radians lat2))]

theorem gridHaversine_self (lat lng : ℝ) : gridHaversine lat lng lat lng = 0 := by
  unfold gridHaversine radians atan2
  simp [sub_self, Real.sqrt_zero, Real.sqrt_one, Real.arctan_zero]

/- ------------------ C1 : candidate score ------------------ -/

/-- C1 counterexample: a candidate whose nearest school is 0.5 km away is
scored with distance 0.5 (Python's `nearest or 1` only replaces None/0), not
with max(0.5, 1) = 1 as the claim states, so the two formulas differ. -/
theorem c1_score_counterexample :
    scoreCell
        { lat := 0, lng := 0, density := 1000, population := 1000,
          district := "", buildings_count := 0, in_restricted_zone := false,
          restricted_info := none, students_current := 0, students_projected := 0,
          nearest_school_km := some (1/2 : ℝ), nearest_school_name := none } ≠
      claimScoreC1
        { lat := 0, lng := 0, density := 1000, population := 1000,
          district := "", buildings_count := 0, in_restricted_zone := false,
          restricted_info := none, students_current := 0, students_projected := 0,
          nearest_school_km := some (1/2 : ℝ), nearest_school_name := none } := by
  unfold scoreCell claimScoreC1 orDefaultR
  dsimp only
  rw [if_neg (by norm_num : ¬(1/2 : ℝ) = 0), Option.getD_some,
    max_eq_right (by norm_num : (1/2 : ℝ) ≤ 1), Real.one_rpow]
  have hlt : ((1:ℝ)/2) ^ (1.5 : ℝ) < 1 :=
    Real.rpow_lt_one (by norm_num) (by norm_num) (by norm_num)
  have hnn : (0:ℝ) ≤ ((1:ℝ)/2) ^ (1.5 : ℝ) := Real.rpow_nonneg (by norm_num) _
  intro h
  norm_num at h
  nlinarith

/-- C1 amended: the score of _generate_smart_recommendations equals the
claimed formula density * max(nearest,1)^1.5 * population/1000 exactly when
the recorded nearest-school distance is missing, zero, or at least 1 km; for
a distance strictly between 0 and 1 the code uses the raw distance (the
counterexample), i.e. the score is density * d^1.5 * population/1000 with
d = (nearest_school_km or 1). -/
theorem c1_score_amended (c : AnalysisCell)
    (h : c.nearest_school_km = none ∨ c.nearest_school_km = some 0 ∨
      ∃ d : ℝ, c.nearest_school_km = some d ∧ 1 ≤ d) :
    scoreCell c = claimScoreC1 c := by
  unfold scoreCell claimScoreC1 orDefaultR
  rcases h with h | h | ⟨d, hd, hd1⟩
  · rw [h]
    dsimp only
    rw [Option.getD_none, max_self]
  · rw [h]
    dsimp only
    rw [if_pos rfl, Option.getD_some, max_eq_right zero_le_one]
  · rw [hd]
    dsimp only
    rw [if_neg (by linarith : ¬d = 0), Option.getD_some, max_eq_left hd1]

/-- Witness for c1_score_amended at a cell with nearest school 2 km away. -/
theorem c1_score_amended_witness :
    (∃ d : ℝ,
      (AnalysisCell.nearest_school_km
        { lat := 0, lng := 0, density := 8000, population := 2000,
          district := "", buildings_count := 0, in_restricted_zone := false,
          restricted_info := none, students_current := 0, students_projected := 0,
          nearest_school_km := some (2 : ℝ), nearest_school_name := none }) = some d ∧ 1 ≤ d) ∧
    scoreCell
        { lat := 0, lng := 0, density := 8000, population := 2000,
          district := "", buildings_count := 0, in_restricted_zone := false,
          restricted_info := none, students_current := 0, students_projected := 0,
          nearest_school_km := some (2 : ℝ), nearest_school_name := none } =
      claimScoreC1
        { lat := 0, lng := 0, density := 8000, population := 2000,
          district := "", buildings_count := 0, in_restricted_zone := false,
          restricted_info := none, students_current := 0, students_projected := 0,
          nearest_school_km := some (2 : ℝ), nearest_school_name := none } :=
  ⟨⟨2, rfl, by norm_num⟩,
    c1_score_amended _ (Or.inr (Or.inr ⟨2, rfl, by norm_num⟩))⟩

/- ------------------ stable sort lemmas ------------------ -/

theorem stableInsert_perm (lt : α → α → Prop) [DecidableRel lt] (x : α)
    (l : List α) : List.Perm (stableInsert lt x l) (x :: l) := by
  induction l with
  | nil => exact List.Perm.refl _
  | cons y ys ih =>
    unfold stableInsert
    split_ifs
    · exact (ih.cons y).trans (List.Perm.swap x y ys)
    · exact List.Perm.refl _

theorem stableSort_perm (lt : α → α → Prop) [DecidableRel lt] (l : List α) :
    List.Perm (stableSort lt l) l := by
  induction l with
  | nil => exact List.Perm.refl _
  | cons x xs ih =>
    unfold stableSort
    exact (stableInsert_perm lt x (stableSort lt xs)).trans (ih.cons x)

theorem mem_stableSort (lt : α → α → Prop) [DecidableRel lt] {x : α}
    {l : List α} (h : x ∈ stableSort lt l) : x ∈ l :=
  (stableSort_perm lt l).mem_iff.mp h

theorem stableSort_ne_nil (lt : α → α → Prop) [DecidableRel lt] {l : List α}
    (h : l ≠ []) : stableSort lt l ≠ [] := by
  intro hn
  apply h
  have hp := (stableSort_perm lt l).length_eq
  rw [hn] at hp
  exact List.length_eq_zero.mp hp.symm

/- ------------------ greedy selection lemmas ------------------ -/

theorem selectLoop_length_le :
    ∀ (l sel : List AnalysisCell), sel.length ≤ 4 → (selectLoop sel l).length ≤ 5 := by
  intro l
  induction l with
  | nil =>
    intro sel h
    simp only [selectLoop]
    omega
  | cons c rest ih =>
    intro sel h
    simp only [selectLoop]
    split_ifs with h1 h2
    · exact ih sel h
    · simp only [List.length_append, List.length_singleton]
      omega
    · apply ih
      simp only [List.length_append, List.length_singleton] at h2 ⊢
      omega

theorem pairwise_append_single {R : α → α → Prop} {sel : List α} {c : α}
    (h : sel.Pairwise R) (hc : ∀ e ∈ sel, R e c) : (sel ++ [c]).Pairwise R := by
  refine List.pairwise_append.mpr ⟨h, List.pairwise_singleton _ _, ?_⟩
  intro a ha b hb
  rw [List.mem_singleton] at hb
  subst hb
  exact hc a ha

theorem selectLoop_pairwise :
    ∀ (l sel : List AnalysisCell),
      sel.Pairwise (fun a b => (0.6 : ℝ) ≤
        aiHaversine (a.lat : ℝ) (a.lng : ℝ) (b.lat : ℝ) (b.lng : ℝ)) →
      (selectLoop sel l).Pairwise (fun a b => (0.6 : ℝ) ≤
        aiHaversine (a.lat : ℝ) (a.lng : ℝ) (b.lat : ℝ) (b.lng : ℝ)) := by
  intro l
  induction l with
  | nil =>
    intro sel h
    simpa only [selectLoop] using h
  | cons c rest ih =>
    intro sel h
    simp only [selectLoop]
    split_ifs with h1 h2
    · exact ih sel h
    all_goals {
      have hfar : ∀ e ∈ sel, (0.6 : ℝ) ≤
          aiHaversine (e.lat : ℝ) (e.lng : ℝ) (c.lat : ℝ) (c.lng : ℝ) := by
        intro e he
        simp only [List.any_eq_true, decide_eq_true_eq] at h1
        push_neg at h1
        have := h1 e he
        rw [aiHaversine_symm]
        linarith
      first
      | exact pairwise_append_single h hfar
      | exact ih _ (pairwise_append_single h hfar)
    }

theorem selectLoop_mem :
    ∀ (l sel : List AnalysisCell) (x : AnalysisCell),
      x ∈ selectLoop sel l → x ∈ sel ∨ x ∈ l := by
  intro l
  induction l with
  | nil =>
    intro sel x hx
    simp only [selectLoop] at hx
    exact Or.inl hx
  | cons c rest ih =>
    intro sel x hx
    simp only [selectLoop] at hx
    split_ifs at hx with h1 h2
    · rcases ih sel x hx with h | h
      · exact Or.inl h
      · exact Or.inr (List.mem_cons_of_mem _ h)
    · rcases List.mem_append.mp hx with h | h
      · exact Or.inl h
      · rw [List.mem_singleton] at h
        exact Or.inr (h ▸ List.mem_cons_self _ _)
    · rcases ih _ x hx with h | h
      · rcases List.mem_append.mp h with h' | h'
        · exact Or.inl h'
        · rw [List.mem_singleton] at h'
          exact Or.inr (h' ▸ List.mem_cons_self _ _)
      · exact Or.inr (List.mem_cons_of_mem _ h)

theorem selectLoop_length_ge :
    ∀ (l sel : List AnalysisCell), sel.length ≤ (selectLoop sel l).length := by
  intro l
  induction l with
  | nil =>
    intro sel
    simp only [selectLoop]
    omega
  | cons c rest ih =>
    intro sel
    simp only [selectLoop]
    split_ifs with h1 h2
    · exact ih sel
    · simp only [List.length_append, List.length_singleton]
      omega
    · have := ih (sel ++ [c])
      simp only [List.length_append, List.length_singleton] at this
      omega

/- ------------------ C3 : spacing invariant ------------------ -/

/-- C3: for every candidate list, the site selector returns at most
max_sites = 5 sites, and the returned list is pairwise at haversine distance
at least min_spacing_km = 0.6 (so any two distinct returned sites are at
least 0.6 km apart; each recommendation carries the coordinates of exactly
one selected cell). -/
theorem c3_spacing_invariant (candidates : List AnalysisCell) :
    (selectedSites candidates).length ≤ 5 ∧
    (selectedSites candidates).Pairwise (fun a b => (0.6 : ℝ) ≤
      aiHaversine (a.lat : ℝ) (a.lng : ℝ) (b.lat : ℝ) (b.lng : ℝ)) :=
  ⟨selectLoop_length_le _ [] (by simp), selectLoop_pairwise _ [] List.Pairwise.nil⟩

/- ------------------ C4 : restricted-zone exclusion and fallback ------------------ -/

theorem flagRestricted_lat (zones : List RestrictedZone) (c : AnalysisCell) :
    (flagRestricted zones c).lat = c.lat := rfl

theorem flagRestricted_lng (zones : List RestrictedZone) (c : AnalysisCell) :
    (flagRestricted zones c).lng = c.lng := rfl

open Classical in
theorem flagRestricted_flag_false {zones : List RestrictedZone}
    {c : AnalysisCell}
    (h : (flagRestricted zones c).in_restricted_zone = false) :
    ¬ InRestrictedZone c.lat c.lng zones := by
  cases zones with
  | nil =>
    intro hmem
    obtain ⟨z, hz, _⟩ := hmem
    exact absurd hz (List.not_mem_nil z)
  | cons a l =>
    unfold flagRestricted at h
    simp only [List.isEmpty_cons, Bool.not_false, Bool.true_and] at h
    exact of_decide_eq_false h

open Classical in
theorem flagRestricted_flag_true {zones : List RestrictedZone}
    {c : AnalysisCell} (h : InRestrictedZone c.lat c.lng zones) :
    (flagRestricted zones c).in_restricted_zone = true := by
  obtain ⟨z, hzmem, hzin⟩ := h
  cases zones with
  | nil => exact absurd hzmem (List.not_mem_nil z)
  | cons a l =>
    unfold flagRestricted
    simp only [List.isEmpty_cons, Bool.not_false, Bool.true_and]
    exact decide_eq_true ⟨z, hzmem, hzin⟩

theorem validCells_of_filter_ne_nil {candidates : List AnalysisCell}
    (h : candidates.filter (fun c => !c.in_restricted_zone) ≠ []) :
    validCells candidates = candidates.filter (fun c => !c.in_restricted_zone) := by
  have hf : (candidates.filter (fun c => !c.in_restricted_zone)).isEmpty = false :=
    List.isEmpty_eq_false.mpr h
  simp [validCells, hf]

theorem validCells_fallback {candidates : List AnalysisCell}
    (h : candidates.filter (fun c => !c.in_restricted_zone) = []) :
    validCells candidates = candidates := by
  simp [validCells, h]

theorem selectLoop_cons_ne_nil (b : AnalysisCell) (L : List AnalysisCell) :
    selectLoop [] (b :: L) ≠ [] := by
  simp only [selectLoop, List.any_nil, List.nil_append, List.length_singleton]
  rw [if_neg (by simp), if_neg (by norm_num)]
  have hlen := selectLoop_length_ge L [b]
  intro hcontra
  rw [hcontra] at hlen
  simp at hlen

open Classical in
/-- C4: if some candidate lies outside every restricted zone, then no
selected site lies strictly within radius_km of any zone center (the filter
branch); and if every candidate lies inside some zone, the selector falls
back to the unfiltered candidates and still returns a non-empty selection
whenever the candidate list is non-empty (the fallback branch). -/
theorem c4_restricted_zones (cells : List AnalysisCell)
    (zones : List RestrictedZone) :
    ((∃ c ∈ cells, ¬ InRestrictedZone c.lat c.lng zones) →
      List.Forall (fun s => ¬ InRestrictedZone s.lat s.lng zones)
        (selectedSites (cells.map (flagRestricted zones)))) ∧
    (cells ≠ [] → (∀ c ∈ cells, InRestrictedZone c.lat c.lng zones) →
      selectedSites (cells.map (flagRestricted zones)) ≠ []) := by
  constructor
  · intro hex
    obtain ⟨c0, hc0mem, hc0out⟩ := hex
    rw [List.forall_iff_forall_mem]
    intro s hs
    have hc0flag : (flagRestricted zones c0).in_restricted_zone = false := by
      cases zones with
      | nil => rfl
      | cons a l =>
        unfold flagRestricted
        simp only [List.isEmpty_cons, Bool.not_false, Bool.true_and]
        exact decide_eq_false hc0out
    have hfmem : flagRestricted zones c0 ∈
        (cells.map (flagRestricted zones)).filter
          (fun c => !c.in_restricted_zone) := by
      rw [List.mem_filter]
      exact ⟨List.mem_map_of_mem _ hc0mem, by rw [hc0flag]; rfl⟩
    have hvalid := validCells_of_filter_ne_nil (List.ne_nil_of_mem hfmem)
    unfold selectedSites at hs
    rcases selectLoop_mem _ [] s hs with h | h
    · exact absurd h (List.not_mem_nil s)
    unfold sortByScoreDesc at h
    have hs2 := mem_stableSort _ h
    rw [hvalid, List.mem_filter] at hs2
    obtain ⟨hsmem, hsflag⟩ := hs2
    obtain ⟨c1, hc1mem, hc1eq⟩ := List.mem_map.mp hsmem
    have hflagfalse : s.in_restricted_zone = false := by
      cases hb : s.in_restricted_zone
      · rfl
      · rw [hb] at hsflag
        exact absurd hsflag (by simp)
    subst hc1eq
    have hout := flagRestricted_flag_false hflagfalse
    simpa [flagRestricted_lat, flagRestricted_lng] using hout
  · intro hne hall
    have hfilter : (cells.map (flagRestricted zones)).filter
        (fun c => !c.in_restricted_zone) = [] := by
      rw [List.filter_eq_nil_iff]
      intro a ha
      obtain ⟨c1, hc1mem, hc1eq⟩ := List.mem_map.mp ha
      subst hc1eq
      rw [flagRestricted_flag_true (hall c1 hc1mem)]
      simp
    have hvalid := validCells_fallback hfilter
    have hmapne : cells.map (flagRestricted zones) ≠ [] := by
      rw [Ne, List.map_eq_nil_iff]
      exact hne
    unfold selectedSites
    rw [hvalid]
    have hsortne : sortByScoreDesc (cells.map (flagRestricted zones)) ≠ [] := by
      unfold sortByScoreDesc
      exact stableSort_ne_nil _ hmapne
    obtain ⟨b, L, hbl⟩ := List.exists_cons_of_ne_nil hsortne
    rw [hbl]
    exact selectLoop_cons_ne_nil b L

/-- Witness for c4_restricted_zones: the filter branch at a single candidate
with no zones, and the fallback branch at a single candidate sitting exactly
on a zone center (haversine distance 0 < radius 0.3). -/
theorem c4_restricted_zones_witness :
    List.Forall (fun s => ¬ InRestrictedZone s.lat s.lng
        ([] : List RestrictedZone))
      (selectedSites
        ([{ lat := 0, lng := 0, density := 9000, population := 1500,
            district := "", buildings_count := 0, in_restricted_zone := false,
            restricted_info := none, students_current := 0,
            students_projected := 0, nearest_school_km := none,
            nearest_school_name := none }].map (flagRestricted []))) ∧
    selectedSites
      ([{ lat := 0, lng := 0, density := 9000, population := 1500,
          district := "", buildings_count := 0, in_restricted_zone := false,
          restricted_info := none, students_current := 0,
          students_projected := 0, nearest_school_km := none,
          nearest_school_name := none }].map
        (flagRestricted
          [{ name := "park", ztype := "park", lat := 0, lng := 0,
             radius_km := some (3/10) }])) ≠ [] := by
  constructor
  · exact (c4_restricted_zones _ []).1
      ⟨_, List.mem_cons_self _ _, by
        intro hmem
        obtain ⟨z, hz, _⟩ := hmem
        exact absurd hz (List.not_mem_nil z)⟩
  · exact (c4_restricted_zones _ _).2 (by simp)
      (by
        intro c hc
        rw [List.mem_singleton] at hc
        subst hc
        refine ⟨_, List.mem_cons_self _ _, ?_⟩
        unfold CellInZone RestrictedZone.effRadius
        dsimp only
        rw [aiHaversine_self]
        norm_num)


/- ------------------ C6 : empty school roster ------------------ -/

/-- C6 (code bug): with an empty school roster the nearest-school scan
records None, as the spec says; but recommendation generation then raises a
TypeError instead of completing, because the priority assignment compares
the None nearest_school_km against 1.5 for any selected cell of density
at most 15000 (here density 7000 > the 6000 high-density threshold). -/
theorem c6_empty_roster_type_error :
    nearestSchoolInfo 0 0 [] = (none, none) ∧
    generateSmartRecommendations
        [{ lat := 0, lng := 0, density := 7000, population := 2000,
           district := "", buildings_count := 10, in_restricted_zone := false,
           restricted_info := none, students_current := 360,
           students_projected := 378, nearest_school_km := none,
           nearest_school_name := none }]
        { growth_factor := 105/100, grid_cells_all := [], schools := [] } =
      .error .typeError :=
  ⟨rfl, rfl⟩

/- ------------------ grid builder lemmas ------------------ -/

theorem le_pyInt {q : ℚ} {n : ℤ} (hn : 0 ≤ n) (hq : (n : ℚ) ≤ q) :
    n ≤ pyInt q := by
  unfold pyInt
  rw [if_pos (le_trans (by exact_mod_cast hn) hq)]
  exact Int.le_floor.mpr hq

theorem upsertCell_forall (Q : RawCell → Prop) (key : ℚ × ℚ) (init : RawCell)
    (f : RawCell → RawCell) (hf : ∀ c, Q (f c)) :
    ∀ (l : List ((ℚ × ℚ) × RawCell)), (∀ kv ∈ l, Q kv.2) →
      ∀ kv ∈ upsertCell key init f l, Q kv.2 := by
  intro l
  induction l with
  | nil =>
    intro _ kv hkv
    unfold upsertCell at hkv
    rw [List.mem_singleton] at hkv
    rw [hkv]
    exact hf init
  | cons kc rest ih =>
    intro hl kv hkv
    unfold upsertCell at hkv
    split_ifs at hkv with hk
    · rcases List.mem_cons.mp hkv with h | h
      · rw [h]
        exact hf kc.2
      · exact hl kv (List.mem_cons_of_mem _ h)
    · rcases List.mem_cons.mp hkv with h | h
      · rw [h]
        exact hl kc (List.mem_cons_self _ _)
      · exact ih (fun x hx => hl x (List.mem_cons_of_mem _ hx)) kv h

theorem aggregate_count_pos (buildings : List Building)
    (districts : List DistrictGeom) :
    ∀ kv ∈ aggregateGrid buildings districts, 0 < kv.2.buildings_count := by
  unfold aggregateGrid
  suffices h : ∀ (bs : List Building) (acc : List ((ℚ × ℚ) × RawCell)),
      (∀ kv ∈ acc, 0 < kv.2.buildings_count) →
      ∀ kv ∈ bs.foldl (addBuilding districts) acc, 0 < kv.2.buildings_count by
    intro kv hkv
    exact h buildings [] (by intro kv hkv; exact absurd hkv (List.not_mem_nil kv)) kv hkv
  intro bs
  induction bs with
  | nil =>
    intro acc hacc
    simpa using hacc
  | cons b rest ih =>
    intro acc hacc
    rw [List.foldl_cons]
    apply ih
    simp only [addBuilding]
    refine upsertCell_forall (fun c => 0 < c.buildings_count) _ _ _ ?_ acc hacc
    intro c
    split_ifs <;> simp

theorem interpolateLoop_cells (avgMap : List (String × ℚ))
    (districts : List DistrictGeom) :
    ∀ (pts seen : List (ℚ × ℚ)),
      ∀ c ∈ interpolateLoop avgMap districts pts seen,
        c.buildings_count = 0 ∧ c.interpolated = true ∧ 0 < c.population := by
  intro pts
  induction pts with
  | nil =>
    intro seen c hc
    unfold interpolateLoop at hc
    exact absurd hc (List.not_mem_nil c)
  | cons p rest ih =>
    intro seen c hc
    simp only [interpolateLoop] at hc
    split_ifs at hc with h1
    · exact ih seen c hc
    · cases hfd : findNearestDistrict (quantizeLat p.1) (quantizeLng p.2) districts with
      | none =>
        rw [hfd] at hc
        exact ih _ c hc
      | some dname =>
        rw [hfd] at hc
        dsimp only at hc
        rcases List.mem_cons.mp hc with h | h
        · subst h
          refine ⟨rfl, rfl, ?_⟩
          dsimp only
          have hd : (100 : ℤ) ≤
              (if pyInt (lookupAvg avgMap dname * 0.3) < 100 then 100
               else pyInt (lookupAvg avgMap dname * 0.3)) := by
            split_ifs <;> omega
          have h25 : (25 : ℤ) ≤ pyInt
              (((if pyInt (lookupAvg avgMap dname * 0.3) < 100 then 100
                 else pyInt (lookupAvg avgMap dname * 0.3)) : ℤ) * (0.25 : ℚ)) := by
            apply le_pyInt (by norm_num)
            have : ((100 : ℤ) : ℚ) ≤
                ((if pyInt (lookupAvg avgMap dname * 0.3) < 100 then 100
                  else pyInt (lookupAvg avgMap dname * 0.3)) : ℤ) := by
              exact_mod_cast hd
            nlinarith
          omega
        · exact ih _ c h

theorem mkGridCell_count (factor : ℚ) (cell : RawCell) :
    (mkGridCell factor cell).buildings_count = cell.buildings_count := rfl

theorem mkGridCell_interpolated (factor : ℚ) (cell : RawCell) :
    (mkGridCell factor cell).interpolated = false := rfl

theorem mkGridCell_population (factor : ℚ) (cell : RawCell) :
    (mkGridCell factor cell).population = pyInt ((cell.population : ℚ) * factor) := rfl

theorem mkGridCell_district (factor : ℚ) (cell : RawCell) :
    (mkGridCell factor cell).district = cell.district := rfl

theorem realGridCells_count_pos (buildings : List Building)
    (districts : List DistrictGeom) :
    ∀ c ∈ realGridCells buildings districts, 0 < c.buildings_count := by
  intro c hc
  obtain ⟨kv, hkvmem, hkveq⟩ := List.mem_map.mp hc
  have hp := (List.mem_filter.mp hkvmem).2
  rw [← hkveq, mkGridCell_count]
  exact of_decide_eq_true hp

theorem realGridCells_not_interpolated (buildings : List Building)
    (districts : List DistrictGeom) :
    ∀ c ∈ realGridCells buildings districts, c.interpolated = false := by
  intro c hc
  obtain ⟨kv, _, hkveq⟩ := List.mem_map.mp hc
  rw [← hkveq, mkGridCell_interpolated]

theorem interpGridCells_spec (districtsPop : List (String × DistrictPopEntry))
    (districts : List DistrictGeom) (sortedCells : List GridCell) :
    ∀ c ∈ interpGridCells districtsPop districts sortedCells,
      c.buildings_count = 0 ∧ c.interpolated = true ∧ 0 < c.population := by
  intro c hc
  unfold interpGridCells at hc
  split_ifs at hc
  · exact absurd hc (List.not_mem_nil c)
  · exact interpolateLoop_cells _ _ _ _ c hc

theorem createPopulationGrid_grid_cells (buildings : List Building)
    (districts : List DistrictGeom) :
    (createPopulationGrid buildings districts).grid_cells =
      sortByDensityDesc (realGridCells buildings districts) ++
        interpGridCells (districtsPopOf buildings districts) districts
          (sortByDensityDesc (realGridCells buildings districts)) := rfl

theorem createPopulationGrid_total (buildings : List Building)
    (districts : List DistrictGeom) :
    (createPopulationGrid buildings districts).total_population =
      ((realGridCells buildings districts).map (fun c => c.population)).sum := rfl

theorem createPopulationGrid_stats_total (buildings : List Building)
    (districts : List DistrictGeom) :
    (createPopulationGrid buildings districts).stats.total_population =
      ((realGridCells buildings districts).map (fun c => c.population)).sum := rfl

theorem createPopulationGrid_districts (buildings : List Building)
    (districts : List DistrictGeom) :
    (createPopulationGrid buildings districts).districts_population =
      districtsPopOf buildings districts := rfl

/- ------------------ district totals lemmas ------------------ -/

theorem bumpDistrict_keys (name : String) (pop : ℤ) (bcount : ℕ) :
    ∀ m : List (String × DistrictPopEntry),
      (bumpDistrict name pop bcount m).map Prod.fst = m.map Prod.fst := by
  intro m
  induction m with
  | nil => rfl
  | cons ke rest ih =>
    unfold bumpDistrict
    split_ifs with h
    · simp
    · simp [ih]

theorem accumulateDistrict_keys (m : List (String × DistrictPopEntry))
    (gc : GridCell) :
    (accumulateDistrict m gc).map Prod.fst = m.map Prod.fst := by
  cases hd : gc.district with
  | none => simp only [accumulateDistrict, hd]
  | some d =>
    simp only [accumulateDistrict, hd]
    split_ifs with h
    · exact bumpDistrict_keys d _ _ m
    · rfl

theorem bumpDistrict_entry (d : String) (pop : ℤ) (bc : ℕ) :
    ∀ m : List (String × DistrictPopEntry), (m.map Prod.fst).Nodup →
      ∀ q' ∈ bumpDistrict d pop bc m, ∃ q ∈ m, q'.1 = q.1 ∧
        q'.2.population = q.2.population + (if q.1 = d then pop else 0) := by
  intro m
  induction m with
  | nil =>
    intro _ q' hq'
    exact absurd hq' (List.not_mem_nil q')
  | cons ke rest ih =>
    intro hnd q' hq'
    rw [List.map_cons, List.nodup_cons] at hnd
    unfold bumpDistrict at hq'
    split_ifs at hq' with hk
    · rcases List.mem_cons.mp hq' with h | h
      · refine ⟨ke, List.mem_cons_self _ _, ?_, ?_⟩
        · rw [h]
        · rw [h, if_pos hk]
      · refine ⟨q', List.mem_cons_of_mem _ h, rfl, ?_⟩
        have hne : q'.1 ≠ d := by
          intro heq
          apply hnd.1
          rw [hk, ← heq]
          exact List.mem_map_of_mem Prod.fst h
        rw [if_neg hne]
        omega
    · rcases List.mem_cons.mp hq' with h | h
      · refine ⟨ke, List.mem_cons_self _ _, by rw [h], ?_⟩
        rw [h, if_neg hk]
        omega
      · obtain ⟨q, hqm, hkey, hpop⟩ := ih hnd.2 q' h
        exact ⟨q, List.mem_cons_of_mem _ hqm, hkey, hpop⟩

theorem accumulateDistrict_entry (m : List (String × DistrictPopEntry))
    (gc : GridCell) (hnd : (m.map Prod.fst).Nodup) :
    ∀ q' ∈ accumulateDistrict m gc, ∃ q ∈ m, q'.1 = q.1 ∧
      q'.2.population = q.2.population +
        (if gc.district = some q.1 ∧ q.1 ≠ "" then gc.population else 0) := by
  intro q' hq'
  rw [accumulateDistrict] at hq'
  cases hd : gc.district with
  | none =>
    rw [hd] at hq'
    refine ⟨q', hq', rfl, ?_⟩
    rw [if_neg (fun h => Option.noConfusion h.1)]
    omega
  | some d =>
    rw [hd] at hq'
    dsimp only at hq'
    by_cases hg : d ≠ "" ∧ (List.find? (fun p => p.1 == d) m).isSome = true
    · rw [if_pos hg] at hq'
      obtain ⟨q, hqm, hkey, hpop⟩ := bumpDistrict_entry d _ _ m hnd q' hq'
      refine ⟨q, hqm, hkey, ?_⟩
      rw [hpop]
      by_cases hq1 : q.1 = d
      · rw [if_pos hq1, if_pos ⟨by rw [hq1], by rw [hq1]; exact hg.1⟩]
      · rw [if_neg hq1, if_neg (fun h => hq1 (Option.some_injective _ h.1).symm)]
    · rw [if_neg hg] at hq'
      refine ⟨q', hq', rfl, ?_⟩
      rw [if_neg ?_]
      · omega
      · intro hcond
        apply hg
        have hdq : d = q'.1 := Option.some_injective _ hcond.1
        refine ⟨?_, ?_⟩
        · rw [hdq]
          exact hcond.2
        · rw [List.find?_isSome]
          exact ⟨q', hq', by rw [hdq]; exact beq_self_eq_true _⟩

theorem accumFold_entry :
    ∀ (cells : List GridCell) (m : List (String × DistrictPopEntry)),
      (m.map Prod.fst).Nodup →
      ∀ p ∈ cells.foldl accumulateDistrict m, ∃ q ∈ m, p.1 = q.1 ∧
        p.2.population = q.2.population +
          ((cells.filter (fun c => decide (c.district = some p.1) &&
            decide (p.1 ≠ ""))).map (fun c => c.population)).sum := by
  intro cells
  induction cells with
  | nil =>
    intro m hnd p hp
    exact ⟨p, hp, rfl, by simp⟩
  | cons gc rest ih =>
    intro m hnd p hp
    rw [List.foldl_cons] at hp
    have hnd' : ((accumulateDistrict m gc).map Prod.fst).Nodup := by
      rw [accumulateDistrict_keys]
      exact hnd
    obtain ⟨q', hq'm, hkey, hpop⟩ := ih (accumulateDistrict m gc) hnd' p hp
    obtain ⟨q, hqm, hkey2, hpop2⟩ := accumulateDistrict_entry m gc hnd q' hq'm
    refine ⟨q, hqm, hkey.trans hkey2, ?_⟩
    have hk : p.1 = q.1 := hkey.trans hkey2
    rw [hpop, hpop2, List.filter_cons]
    by_cases hcond : gc.district = some p.1 ∧ p.1 ≠ ""
    · have hb : (decide (gc.district = some p.1) && decide (p.1 ≠ "")) = true := by
        simp [hcond.1, hcond.2]
      have hcq : gc.district = some q.1 ∧ q.1 ≠ "" := by
        rw [← hk]
        exact hcond
      rw [hb, if_pos hcq]
      simp only [if_true, List.map_cons, List.sum_cons]
      omega
    · have hb : (decide (gc.district = some p.1) && decide (p.1 ≠ "")) = false := by
        rcases not_and_or.mp hcond with h | h
        · simp [h]
        · simp [not_not.mp (fun hh => h hh)]
      have hcq : ¬(gc.district = some q.1 ∧ q.1 ≠ "") := by
        rw [← hk]
        exact hcond
      rw [hb, if_neg hcq]
      simp only [Bool.false_eq_true, if_false]
      omega

theorem upsertPopEntry_forall (P : DistrictPopEntry → Prop) (name : String)
    (v : DistrictPopEntry) (hv : P v) :
    ∀ l : List (String × DistrictPopEntry), (∀ p ∈ l, P p.2) →
      ∀ p ∈ upsertPopEntry name v l, P p.2 := by
  intro l
  induction l with
  | nil =>
    intro _ p hp
    unfold upsertPopEntry at hp
    rw [List.mem_singleton] at hp
    rw [hp]
    exact hv
  | cons ke rest ih =>
    intro hl p hp
    unfold upsertPopEntry at hp
    split_ifs at hp with hk
    · rcases List.mem_cons.mp hp with h | h
      · rw [h]
        exact hv
      · exact hl p (List.mem_cons_of_mem _ h)
    · rcases List.mem_cons.mp hp with h | h
      · rw [h]
        exact hl ke (List.mem_cons_self _ _)
      · exact ih (fun x hx => hl x (List.mem_cons_of_mem _ hx)) p h

theorem initDistrictsPop_zero (districts : List DistrictGeom) :
    ∀ p ∈ initDistrictsPop districts,
      p.2 = { population := 0, buildings := 0, area_km2 := 0 } := by
  unfold initDistrictsPop
  suffices h : ∀ (ds : List DistrictGeom) (acc : List (String × DistrictPopEntry)),
      (∀ p ∈ acc, p.2 = { population := 0, buildings := 0, area_km2 := 0 }) →
      ∀ p ∈ ds.foldl (fun m d =>
        upsertPopEntry d.name { population := 0, buildings := 0, area_km2 := 0 } m) acc,
        p.2 = { population := 0, buildings := 0, area_km2 := 0 } by
    intro p hp
    exact h districts [] (fun p hp => absurd hp (List.not_mem_nil p)) p hp
  intro ds
  induction ds with
  | nil =>
    intro acc hacc
    simpa using hacc
  | cons d rest ih =>
    intro acc hacc
    rw [List.foldl_cons]
    exact ih _ (upsertPopEntry_forall
      (fun e => e = { population := 0, buildings := 0, area_km2 := 0 }) _ _ rfl acc hacc)

theorem upsertPopEntry_keys (name : String) (v : DistrictPopEntry) :
    ∀ l : List (String × DistrictPopEntry),
      (upsertPopEntry name v l).map Prod.fst =
        if name ∈ l.map Prod.fst then l.map Prod.fst
        else l.map Prod.fst ++ [name] := by
  intro l
  induction l with
  | nil => simp [upsertPopEntry]
  | cons ke rest ih =>
    unfold upsertPopEntry
    split_ifs with hk hmem hmem
    · simp
    · exact absurd (by rw [List.map_cons, ← hk]; exact List.mem_cons_self _ _) hmem
    · simp only [List.map_cons] at hmem ⊢
      rw [ih, if_pos ?_]
      rcases List.mem_cons.mp hmem with h | h
      · exact absurd h.symm hk
      · exact h
    · simp only [List.map_cons] at hmem ⊢
      rw [ih, if_neg ?_, List.cons_append]
      intro hc
      exact hmem (List.mem_cons_of_mem _ hc)

theorem upsertPopEntry_nodup (name : String) (v : DistrictPopEntry)
    (l : List (String × DistrictPopEntry)) (h : (l.map Prod.fst).Nodup) :
    ((upsertPopEntry name v l).map Prod.fst).Nodup := by
  rw [upsertPopEntry_keys]
  split_ifs with hmem
  · exact h
  · rw [List.nodup_append]
    refine ⟨h, List.nodup_singleton _, ?_⟩
    intro a ha hb
    rw [List.mem_singleton] at hb
    subst hb
    exact hmem ha

theorem initDistrictsPop_nodup (districts : List DistrictGeom) :
    ((initDistrictsPop districts).map Prod.fst).Nodup := by
  unfold initDistrictsPop
  suffices h : ∀ (ds : List DistrictGeom) (acc : List (String × DistrictPopEntry)),
      ((acc.map Prod.fst).Nodup) →
      ((ds.foldl (fun m d =>
        upsertPopEntry d.name { population := 0, buildings := 0, area_km2 := 0 } m) acc).map
          Prod.fst).Nodup by
    exact h districts [] (by simp)
  intro ds
  induction ds with
  | nil =>
    intro acc hacc
    simpa using hacc
  | cons d rest ih =>
    intro acc hacc
    rw [List.foldl_cons]
    exact ih _ (upsertPopEntry_nodup _ _ _ hacc)

/- ------------------ C10 : totals count only real cells ------------------ -/

/-- C10: the returned total_population is exactly the sum of population over
the real cells (buildings_count > 0) of grid_cells; every interpolated cell
appears with positive population but buildings_count 0 and is counted
neither in total_population, nor in the stats total, nor in any district's
population (each non-empty-named district entry equals the sum over the real
cells assigned to it; an empty district name is never accumulated because
Python's truthiness check skips it). -/
theorem c10_totals_real_cells_only (buildings : List Building)
    (districts : List DistrictGeom) :
    (((createPopulationGrid buildings districts).grid_cells.filter
        (fun c => decide (0 < c.buildings_count))).map (fun c => c.population)).sum =
      (createPopulationGrid buildings districts).total_population ∧
    ((createPopulationGrid buildings districts).grid_cells.filter
        (fun c => c.interpolated)).all
      (fun c => decide (0 < c.population) && decide (c.buildings_count = 0)) = true ∧
    (createPopulationGrid buildings districts).stats.total_population =
      (createPopulationGrid buildings districts).total_population ∧
    (createPopulationGrid buildings districts).districts_population.all
      (fun p => (p.1 == "") || decide (p.2.population =
        (((createPopulationGrid buildings districts).grid_cells.filter
          (fun c => decide (0 < c.buildings_count) &&
            decide (c.district = some p.1))).map (fun c => c.population)).sum)) = true := by
  have hsortperm : List.Perm
      (sortByDensityDesc (realGridCells buildings districts))
      (realGridCells buildings districts) := stableSort_perm _ _
  have hsorted_pos : ∀ c ∈ sortByDensityDesc (realGridCells buildings districts),
      0 < c.buildings_count :=
    fun c hc => realGridCells_count_pos buildings districts c (hsortperm.mem_iff.mp hc)
  have hsorted_ninterp : ∀ c ∈ sortByDensityDesc (realGridCells buildings districts),
      c.interpolated = false :=
    fun c hc => realGridCells_not_interpolated buildings districts c (hsortperm.mem_iff.mp hc)
  have hinterp := interpGridCells_spec (districtsPopOf buildings districts) districts
    (sortByDensityDesc (realGridCells buildings districts))
  refine ⟨?_, ?_, ?_, ?_⟩
  · rw [createPopulationGrid_grid_cells, createPopulationGrid_total,
      List.filter_append]
    have h1 : (sortByDensityDesc (realGridCells buildings districts)).filter
        (fun c => decide (0 < c.buildings_count)) =
        sortByDensityDesc (realGridCells buildings districts) :=
      List.filter_eq_self.mpr (fun c hc => decide_eq_true (hsorted_pos c hc))
    have h2 : (interpGridCells (districtsPopOf buildings districts) districts
        (sortByDensityDesc (realGridCells buildings districts))).filter
        (fun c => decide (0 < c.buildings_count)) = [] := by
      rw [List.filter_eq_nil_iff]
      intro c hc
      rw [(hinterp c hc).1]
      simp
    rw [h1, h2, List.append_nil]
    exact ((hsortperm.map (fun c => c.population)).sum_eq)
  · rw [createPopulationGrid_grid_cells, List.filter_append, List.all_append]
    have h1 : (sortByDensityDesc (realGridCells buildings districts)).filter
        (fun c => c.interpolated) = [] := by
      rw [List.filter_eq_nil_iff]
      intro c hc
      rw [hsorted_ninterp c hc]
      simp
    rw [h1]
    simp only [List.all_nil, Bool.true_and]
    rw [List.all_eq_true]
    intro c hc
    have hm := List.mem_filter.mp hc
    obtain ⟨hcnt, _, hpop⟩ := hinterp c hm.1
    rw [hcnt]
    simp only [decide_eq_true hpop, Bool.true_and]
    simp
  · rw [createPopulationGrid_stats_total, createPopulationGrid_total]
  · rw [createPopulationGrid_districts, List.all_eq_true]
    intro p hp
    by_cases hpe : p.1 = ""
    · rw [hpe]
      simp
    · unfold districtsPopOf at hp
      obtain ⟨q, hq, hkey, hpop⟩ := accumFold_entry
        (realGridCells buildings districts) (initDistrictsPop districts)
        (initDistrictsPop_nodup districts) p hp
      have hq0 := initDistrictsPop_zero districts q hq
      rw [hq0] at hpop
      dsimp only at hpop
      rw [zero_add] at hpop
      have hsum : (((createPopulationGrid buildings districts).grid_cells.filter
          (fun c => decide (0 < c.buildings_count) &&
            decide (c.district = some p.1))).map (fun c => c.population)).sum =
          (((realGridCells buildings districts).filter
            (fun c => decide (c.district = some p.1) &&
              decide (p.1 ≠ ""))).map (fun c => c.population)).sum := by
        rw [createPopulationGrid_grid_cells, List.filter_append]
        have h2 : (interpGridCells (districtsPopOf buildings districts) districts
            (sortByDensityDesc (realGridCells buildings districts))).filter
            (fun c => decide (0 < c.buildings_count) &&
              decide (c.district = some p.1)) = [] := by
          rw [List.filter_eq_nil_iff]
          intro c hc
          rw [(hinterp c hc).1]
          simp
        rw [h2, List.append_nil]
        have hpermf := hsortperm.filter
          (fun c => decide (0 < c.buildings_count) && decide (c.district = some p.1))
        have hcongr : (realGridCells buildings districts).filter
            (fun c => decide (0 < c.buildings_count) && decide (c.district = some p.1)) =
            (realGridCells buildings districts).filter
            (fun c => decide (c.district = some p.1) && decide (p.1 ≠ "")) := by
          apply List.filter_congr
          intro c hc
          rw [decide_eq_true (realGridCells_count_pos buildings districts c hc),
            decide_eq_true hpe, Bool.true_and, Bool.and_true]
        rw [← hcongr]
        exact ((hpermf.map (fun c => c.population)).sum_eq)
      rw [Bool.or_eq_true, decide_eq_true_eq]
      right
      rw [hsum]
      exact hpop

/- ------------------ C5 : empty building list ------------------ -/

/-- C5 amended: an empty building list always yields total_population 0 and
no building-backed cell, without raising; the grid-cell list itself is empty
when no districts are supplied, but with districts supplied the
interpolation pass may still emit (interpolated) cells. -/
theorem c5_amended (districts : List DistrictGeom) :
    (createPopulationGrid [] districts).total_population = 0 ∧
    ((createPopulationGrid [] districts).grid_cells.all
      (fun c => decide (c.buildings_count = 0))) = true ∧
    (createPopulationGrid [] []).grid_cells = [] := by
  have hreal : realGridCells [] districts = [] := rfl
  refine ⟨?_, ?_, rfl⟩
  · rw [createPopulationGrid_total, hreal]
    rfl
  · rw [createPopulationGrid_grid_cells]
    have hs : sortByDensityDesc (realGridCells [] districts) = [] := by
      rw [hreal]
      rfl
    rw [hs, List.nil_append, List.all_eq_true]
    intro c hc
    exact decide_eq_true (interpGridCells_spec _ _ _ c hc).1

theorem quantizeLat_4278 : quantizeLat 42.78 = 42.7815 := by
  unfold quantizeLat bankersRound
  norm_num

theorem quantizeLng_7448 : quantizeLng 74.48 = 74.478 := by
  unfold quantizeLng bankersRound
  norm_num

theorem qRange_cons (n : ℕ) {start stop step : ℚ} (h : start ≤ stop) :
    qRange (n + 1) start stop step = start :: qRange n (start + step) stop step := by
  show (if start ≤ stop then start :: qRange n (start + step) stop step else []) =
    start :: qRange n (start + step) stop step
  rw [if_pos h]

theorem interpPoints_head :
    ∃ rest, interpPoints = ((42.78 : ℚ), (74.48 : ℚ)) :: rest := by
  unfold interpPoints
  have h1 : qRange 200 42.78 42.95 0.0045 =
      (42.78 : ℚ) :: qRange 199 (42.78 + 0.0045) 42.95 0.0045 :=
    qRange_cons 199 (by norm_num)
  have h2 : qRange 200 74.48 74.72 0.006 =
      (74.48 : ℚ) :: qRange 199 (74.48 + 0.006) 74.72 0.006 :=
    qRange_cons 199 (by norm_num)
  rw [h1, h2, List.flatMap_cons, List.map_cons, List.cons_append]
  exact ⟨_, rfl⟩

theorem findNearest_center_district :
    findNearestDistrict 42.7815 74.478
      [{ name := "X", lat := 42.7815, lng := 74.478, geometry := [] }] = some "X" := by
  have hpid : pointInDistrict 42.7815 74.478
      { name := "X", lat := 42.7815, lng := 74.478, geometry := [] } = true := by
    unfold pointInDistrict
    have hcond :
        ({ name := "X", lat := 42.7815, lng := 74.478, geometry := [] } :
          DistrictGeom).geometry.isEmpty = true := rfl
    rw [if_pos hcond]
    apply decide_eq_true
    show gridHaversine ((42.7815 : ℚ) : ℝ) ((74.478 : ℚ) : ℝ)
      ((42.7815 : ℚ) : ℝ) ((74.478 : ℚ) : ℝ) ≤ 2.5
    rw [gridHaversine_self]
    norm_num
  unfold findNearestDistrict
  rw [if_neg (by simp), List.find?_cons_of_pos _ hpid]

/-- C5 counterexample: building the grid from an empty building list with a
district whose center sits on a grid point yields a non-empty grid-cell
list (the interpolation pass emits cells), refuting "empty grid-cell list
for every districts argument"; total_population is still 0. -/
theorem c5_counterexample :
    (createPopulationGrid []
      [{ name := "X", lat := 42.7815, lng := 74.478, geometry := [] }]).grid_cells ≠ [] ∧
    (createPopulationGrid []
      [{ name := "X", lat := 42.7815, lng := 74.478, geometry := [] }]).total_population = 0 := by
  constructor
  · rw [createPopulationGrid_grid_cells]
    have hs : sortByDensityDesc (realGridCells []
        [{ name := "X", lat := 42.7815, lng := 74.478, geometry := [] }]) = [] := rfl
    rw [hs, List.nil_append]
    unfold interpGridCells
    split_ifs with h
    · exact absurd h (by simp)
    · obtain ⟨rest, hpts⟩ := interpPoints_head
      rw [hpts]
      simp only [List.map_nil, interpolateLoop]
      rw [quantizeLat_4278, quantizeLng_7448,
        if_neg (List.not_mem_nil _), findNearest_center_district]
      exact List.cons_ne_nil _ _
  · rw [createPopulationGrid_total]
    rfl

/- ------------------ C2 : calibration is truncated, ratios approximate ------------------ -/

/-- C2 amended: each real (building-backed) output cell's calibrated
population is the Python int() truncation of raw_population × calibration
factor — not the exact product — so ratios between cells are preserved only
up to this rounding, not exactly (see the counterexample). -/
theorem c2_calibration_amended (buildings : List Building)
    (districts : List DistrictGeom) :
    ∀ gc ∈ (createPopulationGrid buildings districts).grid_cells,
      0 < gc.buildings_count →
      ∃ kv ∈ aggregateGrid buildings districts,
        gc.lat = kv.2.lat ∧ gc.lng = kv.2.lng ∧
        gc.population = pyInt ((kv.2.population : ℚ) * calibrationFactor buildings) := by
  intro gc hgc hpos
  rw [createPopulationGrid_grid_cells] at hgc
  rcases List.mem_append.mp hgc with h | h
  · have hmem := (stableSort_perm _ _).mem_iff.mp h
    obtain ⟨kv, hkv, heq⟩ := List.mem_map.mp hmem
    refine ⟨kv, (List.mem_filter.mp hkv).1, ?_, ?_, ?_⟩
    · rw [← heq]
      rfl
    · rw [← heq]
      rfl
    · rw [← heq, mkGridCell_population]
  · have h0 := (interpGridCells_spec _ _ _ gc h).1
    omega

theorem c2_house_pop_7 :
    calculateBuildingPopulation "house" (some 1) 300 "" = ("private", 1, 7) := by
  unfold calculateBuildingPopulation
  norm_num

theorem c2_house_pop_3 :
    calculateBuildingPopulation "house" (some 1) 50 "" = ("private", 1, 3) := by
  unfold calculateBuildingPopulation
  norm_num

theorem c2_aggregate_eval :
    aggregateGrid
      [{ lat := 0, lng := 0, building_type := "house", levels := some 1,
         area_m2 := 300, has_levels_data := false, nameTag := "" },
       { lat := 0.009, lng := 0, building_type := "house", levels := some 1,
         area_m2 := 50, has_levels_data := false, nameTag := "" },
       { lat := 0.018, lng := 0, building_type := "house", levels := some 1,
         area_m2 := 50, has_levels_data := false, nameTag := "" }] [] =
    [((0, 0),
      { lat := 0, lng := 0, population := 7, buildings_count := 1,
        total_levels := 1, total_area := 300, categories := [("private", 1)],
        with_levels_data := 0, district := none }),
     ((0.009, 0),
      { lat := 0.009, lng := 0, population := 3, buildings_count := 1,
        total_levels := 1, total_area := 50, categories := [("private", 1)],
        with_levels_data := 0, district := none }),
     ((0.018, 0),
      { lat := 0.018, lng := 0, population := 3, buildings_count := 1,
        total_levels := 1, total_area := 50, categories := [("private", 1)],
        with_levels_data := 0, district := none })] := by
  norm_num [aggregateGrid, addBuilding, c2_house_pop_7, c2_house_pop_3,
    quantizeLat, quantizeLng, gridKey, pyRoundTo, bankersRound, upsertCell,
    bumpCategory, Prod.ext_iff]

theorem c2_factor_eval :
    calibrationFactor
      [{ lat := 0, lng := 0, building_type := "house", levels := some 1,
         area_m2 := 300, has_levels_data := false, nameTag := "" },
       { lat := 0.009, lng := 0, building_type := "house", levels := some 1,
         area_m2 := 50, has_levels_data := false, nameTag := "" },
       { lat := 0.018, lng := 0, building_type := "house", levels := some 1,
         area_m2 := 50, has_levels_data := false, nameTag := "" }] =
      1350000 / 13 := by
  norm_num [calibrationFactor, rawTotalPopulation, c2_house_pop_7, c2_house_pop_3]

theorem c2_grid_cells_eval :
    (createPopulationGrid
      [{ lat := 0, lng := 0, building_type := "house", levels := some 1,
         area_m2 := 300, has_levels_data := false, nameTag := "" },
       { lat := 0.009, lng := 0, building_type := "house", levels := some 1,
         area_m2 := 50, has_levels_data := false, nameTag := "" },
       { lat := 0.018, lng := 0, building_type := "house", levels := some 1,
         area_m2 := 50, has_levels_data := false, nameTag := "" }] []).grid_cells =
    [{ lat := 0, lng := 0, population := 726923, density := 2907692,
       buildings_count := 1, avg_levels := 1, avg_area := 300,
       dominant_category := "private", categories := [("private", 1)],
       with_levels_data := 0, color := "purple", color_hex := "#7E57C2",
       district := none, interpolated := false },
     { lat := 0.009, lng := 0, population := 311538, density := 1246152,
       buildings_count := 1, avg_levels := 1, avg_area := 50,
       dominant_category := "private", categories := [("private", 1)],
       with_levels_data := 0, color := "purple", color_hex := "#7E57C2",
       district := none, interpolated := false },
     { lat := 0.018, lng := 0, population := 311538, density := 1246152,
       buildings_count := 1, avg_levels := 1, avg_area := 50,
       dominant_category := "private", categories := [("private", 1)],
       with_levels_data := 0, color := "purple", color_hex := "#7E57C2",
       district := none, interpolated := false }] := by
  rw [createPopulationGrid_grid_cells]
  have hreal : realGridCells
      [{ lat := 0, lng := 0, building_type := "house", levels := some 1,
         area_m2 := 300, has_levels_data := false, nameTag := "" },
       { lat := 0.009, lng := 0, building_type := "house", levels := some 1,
         area_m2 := 50, has_levels_data := false, nameTag := "" },
       { lat := 0.018, lng := 0, building_type := "house", levels := some 1,
         area_m2 := 50, has_levels_data := false, nameTag := "" }] [] =
      [{ lat := 0, lng := 0, population := 726923, density := 2907692,
         buildings_count := 1, avg_levels := 1, avg_area := 300,
         dominant_category := "private", categories := [("private", 1)],
         with_levels_data := 0, color := "purple", color_hex := "#7E57C2",
         district := none, interpolated := false },
       { lat := 0.009, lng := 0, population := 311538, density := 1246152,
         buildings_count := 1, avg_levels := 1, avg_area := 50,
         dominant_category := "private", categories := [("private", 1)],
         with_levels_data := 0, color := "purple", color_hex := "#7E57C2",
         district := none, interpolated := false },
       { lat := 0.018, lng := 0, population := 311538, density := 1246152,
         buildings_count := 1, avg_levels := 1, avg_area := 50,
         dominant_category := "private", categories := [("private", 1)],
         with_levels_data := 0, color := "purple", color_hex := "#7E57C2",
         district := none, interpolated := false }] := by
    unfold realGridCells
    rw [c2_aggregate_eval, c2_factor_eval]
    norm_num [mkGridCell, pyInt, pyRoundTo, bankersRound, densityColor,
      dominantCategory]
  rw [hreal]
  norm_num [sortByDensityDesc, stableSort, stableInsert, interpGridCells]

/-- C2 counterexample: three private houses with raw populations 7, 3, 3
(raw total 13) produce calibrated populations 726923 and 311538 by int()
truncation of raw * 1350000/13, and 726923 / 311538 differs from 7 / 3, so
the ratio of calibrated populations is not exactly the ratio of raw
populations. -/
theorem c2_calibration_counterexample :
    ((aggregateGrid
      [{ lat := 0, lng := 0, building_type := "house", levels := some 1,
         area_m2 := 300, has_levels_data := false, nameTag := "" },
       { lat := 0.009, lng := 0, building_type := "house", levels := some 1,
         area_m2 := 50, has_levels_data := false, nameTag := "" },
       { lat := 0.018, lng := 0, building_type := "house", levels := some 1,
         area_m2 := 50, has_levels_data := false, nameTag := "" }] []).map
      (fun kv => kv.2.population)) = [7, 3, 3] ∧
    ((createPopulationGrid
      [{ lat := 0, lng := 0, building_type := "house", levels := some 1,
         area_m2 := 300, has_levels_data := false, nameTag := "" },
       { lat := 0.009, lng := 0, building_type := "house", levels := some 1,
         area_m2 := 50, has_levels_data := false, nameTag := "" },
       { lat := 0.018, lng := 0, building_type := "house", levels := some 1,
         area_m2 := 50, has_levels_data := false, nameTag := "" }] []).grid_cells.map
      (fun c => (c.lat, c.population))) =
      [((0 : ℚ), (726923 : ℤ)), (0.009, 311538), (0.018, 311538)] ∧
    ¬((726923 : ℚ) / 311538 = 7 / 3) := by
  refine ⟨?_, ?_, by norm_num⟩
  · rw [c2_aggregate_eval]
    rfl
  · rw [c2_grid_cells_eval]
    rfl

/-- Witness for c2_calibration_amended at a single house of raw population
5: the only grid cell carries population int(5 * 1350000/5) = 1350000. -/
theorem c2_calibration_amended_witness :
    (({ lat := 0, lng := 0, population := 1350000, density := 5400000,
        buildings_count := 1, avg_levels := 1, avg_area := 120,
        dominant_category := "private", categories := [("private", 1)],
        with_levels_data := 0, color := "purple", color_hex := "#7E57C2",
        district := none, interpolated := false } : GridCell) ∈
      (createPopulationGrid
        [{ lat := 0, lng := 0, building_type := "house", levels := some 1,
           area_m2 := 120, has_levels_data := false, nameTag := "" }] []).grid_cells) ∧
    (∃ kv ∈ aggregateGrid
        [{ lat := 0, lng := 0, building_type := "house", levels := some 1,
           area_m2 := 120, has_levels_data := false, nameTag := "" }] [],
      ({ lat := 0, lng := 0, population := 1350000, density := 5400000,
         buildings_count := 1, avg_levels := 1, avg_area := 120,
         dominant_category := "private", categories := [("private", 1)],
         with_levels_data := 0, color := "purple", color_hex := "#7E57C2",
         district := none, interpolated := false } : GridCell).lat = kv.2.lat ∧
      ({ lat := 0, lng := 0, population := 1350000, density := 5400000,
         buildings_count := 1, avg_levels := 1, avg_area := 120,
         dominant_category := "private", categories := [("private", 1)],
         with_levels_data := 0, color := "purple", color_hex := "#7E57C2",
         district := none, interpolated := false } : GridCell).lng = kv.2.lng ∧
      ({ lat := 0, lng := 0, population := 1350000, density := 5400000,
         buildings_count := 1, avg_levels := 1, avg_area := 120,
         dominant_category := "private", categories := [("private", 1)],
         with_levels_data := 0, color := "purple", color_hex := "#7E57C2",
         district := none, interpolated := false } : GridCell).population =
        pyInt ((kv.2.population : ℚ) * calibrationFactor
          [{ lat := 0, lng := 0, building_type := "house", levels := some 1,
             area_m2 := 120, has_levels_data := false, nameTag := "" }])) := by
  have hgrid : (createPopulationGrid
      [{ lat := 0, lng := 0, building_type := "house", levels := some 1,
         area_m2 := 120, has_levels_data := false, nameTag := "" }] []).grid_cells =
      [{ lat := 0, lng := 0, population := 1350000, density := 5400000,
         buildings_count := 1, avg_levels := 1, avg_area := 120,
         dominant_category := "private", categories := [("private", 1)],
         with_levels_data := 0, color := "purple", color_hex := "#7E57C2",
         district := none, interpolated := false }] := by
    rw [createPopulationGrid_grid_cells]
    have hreal : realGridCells
        [{ lat := 0, lng := 0, building_type := "house", levels := some 1,
           area_m2 := 120, has_levels_data := false, nameTag := "" }] [] =
        [{ lat := 0, lng := 0, population := 1350000, density := 5400000,
           buildings_count := 1, avg_levels := 1, avg_area := 120,
           dominant_category := "private", categories := [("private", 1)],
           with_levels_data := 0, color := "purple", color_hex := "#7E57C2",
           district := none, interpolated := false }] := by
      norm_num [realGridCells, aggregateGrid, addBuilding,
        calculateBuildingPopulation, quantizeLat, quantizeLng, gridKey,
        upsertCell, bumpCategory, calibrationFactor, rawTotalPopulation,
        mkGridCell, pyInt, pyRoundTo, bankersRound, densityColor,
        dominantCategory]
    rw [hreal]
    norm_num [sortByDensityDesc, stableSort, stableInsert, interpGridCells]
  refine ⟨?_, ?_⟩
  · rw [hgrid]
    exact List.mem_singleton.mpr rfl
  · exact c2_calibration_amended _ _ _
      (by rw [hgrid]; exact List.mem_singleton.mpr rfl) (by norm_num)

end UrbanAI

